import Mathlib

/-!
Verification development for the tracklog-pwa trip event ledger, metrics
engine and expressway detector. Definitions are shallow embeddings of the
TypeScript sources under src/: timestamps are modelled as integers
(milliseconds since the epoch; ISO-8601 strings compare lexicographically in
the same order), JavaScript numbers holding odometer readings and distances
as Int, and speeds as rationals. Fallible operations return the error
message together with the (unchanged) store, mirroring functions that throw
before writing.
-/

deriving instance DecidableEq for Except

namespace Tracklog

/-- Sort ascending by a numeric key, as Array.prototype.sort with the
comparator a.ts.localeCompare(b.ts) does on ISO timestamps (stable). -/
def sortByTs {α : Type} (key : α → Nat) (l : List α) : List α :=
  l.insertionSort (fun a b => key a ≤ key b)

/-- RestStartEvent payload (domain/types.ts): restSessionId and odoKm. -/
structure RestStart where
  ts : Nat
  restSessionId : String
  odoKm : Int
  deriving DecidableEq, Repr

/-- RestEndEvent payload (domain/types.ts): restSessionId, dayClose, dayIndex. -/
structure RestEnd where
  ts : Nat
  restSessionId : String
  dayClose : Bool
  dayIndex : Option Int
  deriving DecidableEq, Repr

/-- Entry of the internal checkpoint list built by computeSegments. -/
structure Point where
  label : String
  odo : Int
  ts : Nat
  restSessionId : Option String
  deriving DecidableEq, Repr

/-- Segment (domain/types.ts). -/
structure Segment where
  index : Nat
  fromLabel : String
  toLabel : String
  fromOdo : Int
  toOdo : Int
  km : Int
  valid : Bool
  fromTs : Nat
  toTs : Nat
  restSessionIdTo : Option String
  deriving DecidableEq, Repr

inductive DayStatus
  | confirmed
  | pending
  deriving DecidableEq, Repr

/-- DayRun (domain/types.ts); closeOdo is carried by computeDayRuns. -/
structure DayRun where
  dayIndex : Int
  fromLabel : String
  toLabel : String
  km : Int
  closeOdo : Option Int
  status : DayStatus
  deriving DecidableEq, Repr

/-- Parameter record of computeSegments (domain/metrics.ts line 11).
tripEnd bundles (odoEnd, tripEndTs). -/
structure SegParams where
  odoStart : Int
  tripStartTs : Nat
  restStarts : List RestStart
  tripEnd : Option (Int × Nat)
  deriving DecidableEq, Repr

/-- The ordered checkpoint list `points` built inside computeSegments:
trip start, then rest starts sorted by time, then trip end if present. -/
def segPoints (p : SegParams) : List Point :=
  let rs := sortByTs RestStart.ts p.restStarts
  { label := "trip_start", odo := p.odoStart, ts := p.tripStartTs, restSessionId := none } ::
    (rs.enum.map fun ir =>
      { label := "rest_start_" ++ toString (ir.1 + 1), odo := ir.2.odoKm, ts := ir.2.ts,
        restSessionId := some ir.2.restSessionId })
    ++ (match p.tripEnd with
        | some oe => [{ label := "trip_end", odo := oe.1, ts := oe.2, restSessionId := none }]
        | none => [])

/-- One segment of computeSegments, from an adjacent checkpoint pair:
km = toOdo - fromOdo, valid = (km ≥ 0). -/
def mkSeg (prev q : Point) (i : Nat) : Segment :=
  { index := i, fromLabel := prev.label, toLabel := q.label,
    fromOdo := prev.odo, toOdo := q.odo, km := q.odo - prev.odo,
    valid := decide (0 ≤ q.odo - prev.odo),
    fromTs := prev.ts, toTs := q.ts, restSessionIdTo := q.restSessionId }

/-- The loop of computeSegments: one segment per adjacent checkpoint pair. -/
def mkSegments : Point → List Point → Nat → List Segment
  | _, [], _ => []
  | prev, q :: rest, i => mkSeg prev q i :: mkSegments q rest (i + 1)

/-- computeSegments (domain/metrics.ts lines 11-61). -/
def computeSegments (p : SegParams) : List Segment :=
  match segPoints p with
  | [] => []
  | first :: rest => mkSegments first rest 1

/-- Parameter record of computeTotals (domain/metrics.ts line 68). -/
structure TotalsParams where
  odoStart : Int
  odoEnd : Int
  lastRestStartOdo : Option Int
  deriving DecidableEq, Repr

structure Totals where
  totalKm : Int
  lastLegKm : Int
  valid : Bool
  deriving DecidableEq, Repr

/-- computeTotals (domain/metrics.ts lines 68-76). -/
def computeTotals (p : TotalsParams) : Totals :=
  let totalKm := p.odoEnd - p.odoStart
  let lastLegKm := match p.lastRestStartOdo with
    | some r => p.odoEnd - r
    | none => totalKm
  { totalKm := totalKm, lastLegKm := lastLegKm,
    valid := decide (0 ≤ totalKm) && decide (0 ≤ lastLegKm) }

/-- Parameter record of computeDayRuns (domain/metrics.ts line 84). -/
structure DayRunParams where
  odoStart : Int
  restStarts : List RestStart
  restEnds : List RestEnd
  odoEnd : Option Int
  deriving DecidableEq, Repr

/-- Lookup in the startOdoBySession map: the map is filled by iterating the
sorted rest starts with set, so a later entry with the same session id wins. -/
def startOdoBySession (rs : List RestStart) (sid : String) : Option Int :=
  (rs.reverse.find? (fun r => r.restSessionId == sid)).map (·.odoKm)

structure Boundary where
  dayIndex : Int
  boundaryOdo : Int
  ts : Nat
  deriving DecidableEq, Repr

/-- The boundary extraction of computeDayRuns: dayClose rest ends, with
dayIndex defaulted to the position, dropped when the session has no
rest-start odometer, then sorted by timestamp. -/
def dayRunBoundaries (p : DayRunParams) : List Boundary :=
  let rs := sortByTs RestStart.ts p.restStarts
  let re := sortByTs RestEnd.ts p.restEnds
  let closes := re.filter (·.dayClose)
  (closes.enum.filterMap fun ie =>
      (startOdoBySession rs ie.2.restSessionId).map fun odo =>
        { dayIndex := ie.2.dayIndex.getD (Int.ofNat ie.1 + 1), boundaryOdo := odo, ts := ie.2.ts })
    |>.insertionSort (fun a b => a.ts ≤ b.ts)

/-- The boundaries.forEach fold of computeDayRuns, emitting one confirmed
day run per boundary. -/
def buildDays : List Boundary → Int → Int → List DayRun
  | [], _, _ => []
  | b :: rest, prevOdo, prevDayIndex =>
    { dayIndex := b.dayIndex,
      fromLabel := if prevDayIndex = 0 then "trip_start"
                   else "day_" ++ toString prevDayIndex ++ "_close",
      toLabel := "day_" ++ toString b.dayIndex ++ "_close",
      km := b.boundaryOdo - prevOdo, closeOdo := some b.boundaryOdo, status := .confirmed }
      :: buildDays rest b.boundaryOdo b.dayIndex

/-- computeDayRuns (domain/metrics.ts lines 84-149). -/
def computeDayRuns (p : DayRunParams) : List DayRun :=
  let boundaries := dayRunBoundaries p
  let days := buildDays boundaries p.odoStart 0
  let prevOdo := ((boundaries.getLast?).map (·.boundaryOdo)).getD p.odoStart
  let prevDayIndex := ((boundaries.getLast?).map (·.dayIndex)).getD 0
  match p.odoEnd with
  | some oe =>
    days ++ [{ dayIndex := prevDayIndex + 1,
               fromLabel := if prevDayIndex = 0 then "trip_start"
                            else "day_" ++ toString prevDayIndex ++ "_close",
               toLabel := "trip_end", km := oe - prevOdo, closeOdo := some oe,
               status := .confirmed }]
  | none =>
    if 0 ≤ prevDayIndex then
      days ++ [{ dayIndex := prevDayIndex + 1,
                 fromLabel := if prevDayIndex = 0 then "trip_start"
                              else "day_" ++ toString prevDayIndex ++ "_close",
                 toLabel := "pending", km := 0, closeOdo := none, status := .pending }]
    else days

def DAY_MS : Nat := 24 * 60 * 60 * 1000

/-- Shallow embedding of getJstDateInfo (domain/jst.ts lines 16-31):
Asia/Tokyo is a fixed UTC+9 offset, so the civil-date stamp of a
millisecond timestamp is its UTC+9 day, scaled back to milliseconds. -/
def jstDayStamp (ts : Nat) : Nat :=
  (ts + 9 * 60 * 60 * 1000) / DAY_MS * DAY_MS

/-- Trip data shared by computeSegments and computeDayRuns, as
buildTripViewModel extracts it from a trip event list. -/
structure TripData where
  odoStart : Int
  tripStartTs : Nat
  restStarts : List RestStart
  restEnds : List RestEnd
  tripEnd : Option (Int × Nat)
  deriving DecidableEq, Repr

def segParamsOf (t : TripData) : SegParams :=
  { odoStart := t.odoStart, tripStartTs := t.tripStartTs,
    restStarts := t.restStarts, tripEnd := t.tripEnd }

def dayParamsOf (t : TripData) : DayRunParams :=
  { odoStart := t.odoStart, restStarts := t.restStarts,
    restEnds := t.restEnds, odoEnd := t.tripEnd.map (·.1) }

/-- Sum of the km of the valid segments of a trip. -/
def validSegKmSum (p : SegParams) : Int :=
  (((computeSegments p).filter (·.valid)).map (·.km)).sum

/-- lastRestStartOdo as callers of computeTotals derive it: the odometer of
the rest start with the greatest timestamp. -/
def lastRestStartOdoOf (p : SegParams) : Option Int :=
  ((sortByTs RestStart.ts p.restStarts).getLast?).map (·.odoKm)

/-- computeTotals applied to the same trip as computeSegments. -/
def tripTotals (p : SegParams) (odoEnd : Int) : Totals :=
  computeTotals { odoStart := p.odoStart, odoEnd := odoEnd,
                  lastRestStartOdo := lastRestStartOdoOf p }

/-- The distinct JST civil dates on which some segment of the trip ends. -/
def segEndDates (p : SegParams) : List Nat :=
  ((computeSegments p).map (fun s => jstDayStamp s.toTs)).dedup

/-- Sum of the km of the segments ending on the given JST civil date. -/
def dateKm (p : SegParams) (d : Nat) : Int :=
  (((computeSegments p).filter (fun s => jstDayStamp s.toTs == d)).map (·.km)).sum

/-- C1 as the spec words it (spec-side rendering, to be compared with the
source computeDayRuns): day runs group the segments by the JST civil date
of each segment end timestamp with km the per-date sum, and the last day
run is confirmed once a trip end or closing boundary exists, pending
otherwise. -/
def dayRunsGroupByJstDate (t : TripData) : Prop :=
  (computeDayRuns (dayParamsOf t)).map (·.km)
      = (segEndDates (segParamsOf t)).map (dateKm (segParamsOf t))
    ∧ ((computeDayRuns (dayParamsOf t)).getLast?).map (·.status) =
        some (if t.tripEnd.isSome || t.restEnds.any (·.dayClose) then
                DayStatus.confirmed
              else DayStatus.pending)

/-! Support lemmas for the metrics engine. -/

lemma mkSegments_length (l : List Point) : ∀ (a : Point) (n : Nat),
    (mkSegments a l n).length = l.length := by
  induction l with
  | nil => intro a n; rfl
  | cons b rest ih => intro a n; simp [mkSegments, ih]

lemma mkSegments_get? (l : List Point) : ∀ (a : Point) (n i : Nat) (b c : Point),
    (a :: l).get? i = some b → l.get? i = some c →
    (mkSegments a l n).get? i = some (mkSeg b c (n + i)) := by
  induction l with
  | nil => intro a n i b c _ hc; simp at hc
  | cons d rest ih =>
    intro a n i b c hb hc
    cases i with
    | zero =>
      simp only [List.get?_cons_zero, Option.some.injEq] at hb hc
      subst hb; subst hc
      rfl
    | succ j =>
      simp only [List.get?_cons_succ] at hb hc
      have h := ih d (n + 1) j b c hb hc
      simpa [mkSegments, Nat.add_assoc, Nat.add_comm 1 j] using h

lemma getLast?_getD_cons {α : Type} (b a : α) (rest : List α) :
    (((b :: rest).getLast?).getD a) = ((rest.getLast?).getD b) := by
  cases rest with
  | nil => rfl
  | cons c r =>
    obtain ⟨x, hx⟩ := Option.isSome_iff_exists.mp (List.getLast?_isSome.mpr (List.cons_ne_nil c r))
    rw [List.getLast?_cons_cons, hx]
    rfl

lemma mkSegments_km_sum (l : List Point) : ∀ (a : Point) (n : Nat),
    ((mkSegments a l n).map (·.km)).sum = ((l.getLast?).getD a).odo - a.odo := by
  induction l with
  | nil => intro a n; simp [mkSegments]
  | cons b rest ih =>
    intro a n
    simp only [mkSegments, List.map_cons, List.sum_cons, mkSeg]
    rw [ih b (n + 1), ← getLast?_getD_cons b a rest]
    omega

lemma buildDays_status : ∀ (bs : List Boundary) (po pdi : Int),
    ∀ r ∈ buildDays bs po pdi, r.status = DayStatus.confirmed := by
  intro bs
  induction bs with
  | nil => intro po pdi r hr; simp [buildDays] at hr
  | cons b rest ih =>
    intro po pdi r hr
    simp only [buildDays, List.mem_cons] at hr
    rcases hr with h | h
    · subst h; rfl
    · exact ih b.boundaryOdo b.dayIndex r h

lemma buildDays_km_sum : ∀ (bs : List Boundary) (po pdi : Int),
    ((buildDays bs po pdi).map (·.km)).sum
      = (((bs.getLast?).map (·.boundaryOdo)).getD po) - po := by
  intro bs
  induction bs with
  | nil => intro po pdi; simp [buildDays]
  | cons b rest ih =>
    intro po pdi
    simp only [buildDays, List.map_cons, List.sum_cons]
    rw [ih b.boundaryOdo b.dayIndex]
    cases rest with
    | nil => simp
    | cons c r =>
      obtain ⟨x, hx⟩ := Option.isSome_iff_exists.mp (List.getLast?_isSome.mpr (List.cons_ne_nil c r))
      rw [List.getLast?_cons_cons, hx]
      simp only [Option.map_some', Option.getD_some]
      omega

lemma mem_of_mem_enumFrom {α : Type} : ∀ (l : List α) (n : Nat) (ia : Nat × α),
    ia ∈ l.enumFrom n → ia.2 ∈ l := by
  intro l
  induction l with
  | nil => intro n ia h; simp [List.enumFrom] at h
  | cons a rest ih =>
    intro n ia h
    simp only [List.enumFrom, List.mem_cons] at h
    rcases h with h | h
    · subst h; exact List.mem_cons_self _ _
    · exact List.mem_cons_of_mem _ (ih (n + 1) ia h)

lemma dayRunBoundaries_dayIndex_nonneg (p : DayRunParams)
    (h : ∀ e ∈ p.restEnds, ∀ d, e.dayIndex = some d → 0 ≤ d) :
    ∀ b ∈ dayRunBoundaries p, 0 ≤ b.dayIndex := by
  intro b hb
  unfold dayRunBoundaries at hb
  rw [List.mem_insertionSort] at hb
  rw [List.mem_filterMap] at hb
  obtain ⟨ie, hie, heq⟩ := hb
  rw [Option.map_eq_some'] at heq
  obtain ⟨odo, _, hdef⟩ := heq
  have hmem : ie.2 ∈ p.restEnds := by
    have h1 : ie.2 ∈ (sortByTs RestEnd.ts p.restEnds).filter (·.dayClose) := by
      simpa [List.enum] using mem_of_mem_enumFrom _ 0 ie hie
    have h2 : ie.2 ∈ sortByTs RestEnd.ts p.restEnds := (List.mem_filter.mp h1).1
    unfold sortByTs at h2
    exact (List.mem_insertionSort _).mp h2
  subst hdef
  cases hdi : ie.2.dayIndex with
  | none => simp [hdi]; omega
  | some d => simpa [hdi] using h ie.2 hmem d hdi

lemma mem_of_getLast? {α : Type} {l : List α} {a : α} (h : l.getLast? = some a) : a ∈ l := by
  induction l with
  | nil => simp at h
  | cons b rest ih =>
    cases rest with
    | nil => simp at h; simp [h]
    | cons c r =>
      rw [List.getLast?_cons_cons] at h
      exact List.mem_cons_of_mem _ (ih h)

/-! Claim theorems for the metrics engine. -/

/-- C4: computeSegments orders the checkpoint list as trip start, then rest
starts sorted by timestamp, then trip end if present; it emits exactly one
segment per adjacent checkpoint pair; every segment satisfies
km = toOdo - fromOdo; and valid is false iff km is negative (negative
segments are emitted, not dropped). -/
theorem c4_computeSegments_spec (p : SegParams) (i : Nat) (s : Segment)
    (hs : (computeSegments p).get? i = some s) :
    (segPoints p =
      { label := "trip_start", odo := p.odoStart, ts := p.tripStartTs, restSessionId := none } ::
        ((sortByTs RestStart.ts p.restStarts).enum.map fun ir =>
          { label := "rest_start_" ++ toString (ir.1 + 1), odo := ir.2.odoKm, ts := ir.2.ts,
            restSessionId := some ir.2.restSessionId })
        ++ (match p.tripEnd with
            | some oe => [{ label := "trip_end", odo := oe.1, ts := oe.2, restSessionId := none }]
            | none => [])) ∧
    (computeSegments p).length + 1 = (segPoints p).length ∧
    (∃ a b, (segPoints p).get? i = some a ∧ (segPoints p).get? (i + 1) = some b ∧
      s = mkSeg a b (i + 1)) ∧
    s.km = s.toOdo - s.fromOdo ∧
    (s.valid = false ↔ s.km < 0) := by
  obtain ⟨hd, tl, h⟩ : ∃ hd tl, segPoints p = hd :: tl := ⟨_, _, rfl⟩
  have hc : computeSegments p = mkSegments hd tl 1 := by
    unfold computeSegments
    rw [h]
  rw [hc] at hs
  have hlen : i < tl.length := by
    rcases List.get?_eq_some.mp hs with ⟨hi, _⟩
    simpa [mkSegments_length] using hi
  obtain ⟨c, hcd⟩ : ∃ c, tl.get? i = some c := by
    cases hg : tl.get? i with
    | none => exact absurd (List.get?_eq_none.mp hg) (Nat.not_le_of_lt hlen)
    | some c => exact ⟨c, rfl⟩
  obtain ⟨b, hbd⟩ : ∃ b, (hd :: tl).get? i = some b := by
    cases hg : (hd :: tl).get? i with
    | none =>
      have := List.get?_eq_none.mp hg
      simp only [List.length_cons] at this
      omega
    | some b => exact ⟨b, rfl⟩
  have hseg := mkSegments_get? tl hd 1 i b c hbd hcd
  rw [hs] at hseg
  have hsval : s = mkSeg b c (i + 1) := by
    have h2 := (Option.some.injEq _ _).mp hseg.symm
    rw [Nat.add_comm 1 i] at h2
    exact h2.symm
  refine ⟨rfl, ?_, ⟨b, c, ?_, ?_, hsval⟩, ?_, ?_⟩
  · rw [hc, h]
    simp [mkSegments_length]
  · rw [h]; exact hbd
  · rw [h, List.get?_cons_succ]; exact hcd
  · rw [hsval]; rfl
  · rw [hsval]
    simp only [mkSeg, decide_eq_false_iff_not, not_le]

/-- Concrete one-rest trip used to witness C4. -/
def c4Trip : SegParams :=
  { odoStart := 0, tripStartTs := 0, restStarts := [⟨5, "r1", 40⟩], tripEnd := some (100, 9) }

/-- C4 witness: the theorem instantiated on a concrete one-rest trip. -/
theorem c4_computeSegments_spec_witness :
    ((computeSegments c4Trip).get? 0
      = some (mkSeg ⟨"trip_start", 0, 0, none⟩ ⟨"rest_start_1", 40, 5, some "r1"⟩ 1)) ∧
    ((mkSeg ⟨"trip_start", 0, 0, none⟩ ⟨"rest_start_1", 40, 5, some "r1"⟩ 1).valid = false ↔
      (mkSeg ⟨"trip_start", 0, 0, none⟩ ⟨"rest_start_1", 40, 5, some "r1"⟩ 1).km < 0) :=
  ⟨by decide,
    (c4_computeSegments_spec c4Trip 0 _ (by decide)).2.2.2.2⟩

/-- Trip with a decreasing middle checkpoint, refuting C3 as stated. -/
def c3BadTrip : SegParams :=
  { odoStart := 0, tripStartTs := 0, restStarts := [⟨1, "r1", 100⟩, ⟨2, "r2", 50⟩],
    tripEnd := some (150, 3) }

/-- C3 as stated is false on the code: with a decreasing checkpoint in the
middle, the valid segments sum to 200 km while totalKm is 150. -/
theorem c3_counterexample :
    ¬ (validSegKmSum c3BadTrip = (tripTotals c3BadTrip 150).totalKm) := by
  decide

/-- C3 amended: when every emitted segment is valid, the sum of the km of
the valid segments equals computeTotals totalKm for the same odoStart and
odoEnd. -/
theorem c3_valid_segment_sum (p : SegParams) (oe : Int) (et : Nat)
    (he : p.tripEnd = some (oe, et))
    (hv : ∀ s ∈ computeSegments p, s.valid = true) :
    validSegKmSum p = (tripTotals p oe).totalKm := by
  have hpts : segPoints p =
      { label := "trip_start", odo := p.odoStart, ts := p.tripStartTs, restSessionId := none } ::
        ((sortByTs RestStart.ts p.restStarts).enum.map fun ir =>
          { label := "rest_start_" ++ toString (ir.1 + 1), odo := ir.2.odoKm, ts := ir.2.ts,
            restSessionId := some ir.2.restSessionId })
        ++ [{ label := "trip_end", odo := oe, ts := et, restSessionId := none }] := by
    unfold segPoints
    rw [he]
  have hc : computeSegments p = mkSegments
      { label := "trip_start", odo := p.odoStart, ts := p.tripStartTs, restSessionId := none }
      (((sortByTs RestStart.ts p.restStarts).enum.map fun ir =>
          { label := "rest_start_" ++ toString (ir.1 + 1), odo := ir.2.odoKm, ts := ir.2.ts,
            restSessionId := some ir.2.restSessionId })
        ++ [{ label := "trip_end", odo := oe, ts := et, restSessionId := none }]) 1 := by
    unfold computeSegments
    rw [hpts]
    rfl
  unfold validSegKmSum
  rw [List.filter_eq_self.mpr hv, hc, mkSegments_km_sum, List.getLast?_concat]
  simp [tripTotals, computeTotals]

/-- Monotone trip used to witness the amended C3. -/
def c3GoodTrip : SegParams :=
  { odoStart := 0, tripStartTs := 0, restStarts := [⟨1, "r1", 40⟩], tripEnd := some (100, 3) }

/-- C3 witness: a monotone trip where the valid-segment sum matches totalKm. -/
theorem c3_valid_segment_sum_witness :
    validSegKmSum c3GoodTrip = (tripTotals c3GoodTrip 100).totalKm :=
  c3_valid_segment_sum c3GoodTrip 100 3 rfl (by decide)

/-- C1 as stated is false on the code: in a single-JST-date trip with one
dayClose boundary, computeDayRuns yields two day runs of 30 km and 70 km,
while grouping segments by the civil date of their end timestamps yields a
single 100 km group. -/
theorem c1_counterexample :
    ¬ dayRunsGroupByJstDate ⟨0, 0, [⟨1000, "r1", 30⟩], [⟨2000, "r1", true, some 1⟩],
        some (100, 3000)⟩ := by
  unfold dayRunsGroupByJstDate
  decide

/-- C1 amended: computeDayRuns groups by dayClose boundaries rather than by
civil calendar date: each day run up to a boundary is confirmed with km the
odometer difference between consecutive boundaries; when odoEnd is present
all day runs are confirmed and their km sum to odoEnd - odoStart; when
odoEnd is absent the last day run is a pending zero-km placeholder. -/
theorem c1_computeDayRuns_boundary_spec (p : DayRunParams)
    (hdix : ∀ e ∈ p.restEnds, ∀ d, e.dayIndex = some d → 0 ≤ d) :
    (∀ oe, p.odoEnd = some oe →
      ((computeDayRuns p).map (·.km)).sum = oe - p.odoStart ∧
      ∀ r ∈ computeDayRuns p, r.status = DayStatus.confirmed) ∧
    (p.odoEnd = none →
      ∃ ds r, computeDayRuns p = ds ++ [r] ∧ r.status = DayStatus.pending ∧ r.km = 0 ∧
        ∀ x ∈ ds, x.status = DayStatus.confirmed) := by
  constructor
  · intro oe hoe
    have hc : computeDayRuns p =
        buildDays (dayRunBoundaries p) p.odoStart 0 ++
          [{ dayIndex := (((dayRunBoundaries p).getLast?).map (·.dayIndex)).getD 0 + 1,
             fromLabel := if (((dayRunBoundaries p).getLast?).map (·.dayIndex)).getD 0 = 0 then
                 "trip_start"
               else "day_" ++ toString ((((dayRunBoundaries p).getLast?).map (·.dayIndex)).getD 0)
                 ++ "_close",
             toLabel := "trip_end",
             km := oe - (((dayRunBoundaries p).getLast?).map (·.boundaryOdo)).getD p.odoStart,
             closeOdo := some oe, status := .confirmed }] := by
      unfold computeDayRuns
      rw [hoe]
    constructor
    · rw [hc]
      simp only [List.map_append, List.sum_append, List.map_cons, List.map_nil, List.sum_cons,
        List.sum_nil]
      rw [buildDays_km_sum]
      omega
    · intro r hr
      rw [hc] at hr
      rcases List.mem_append.mp hr with hmem | hmem
      · exact buildDays_status _ _ _ r hmem
      · simp only [List.mem_singleton] at hmem
        rw [hmem]
  · intro hoe
    have hnn : (0 : Int) ≤ (((dayRunBoundaries p).getLast?).map (·.dayIndex)).getD 0 := by
      cases hg : (dayRunBoundaries p).getLast? with
      | none => simp
      | some b =>
        simp only [Option.map_some', Option.getD_some]
        exact dayRunBoundaries_dayIndex_nonneg p hdix b (mem_of_getLast? hg)
    have hc : computeDayRuns p =
        buildDays (dayRunBoundaries p) p.odoStart 0 ++
          [{ dayIndex := (((dayRunBoundaries p).getLast?).map (·.dayIndex)).getD 0 + 1,
             fromLabel := if (((dayRunBoundaries p).getLast?).map (·.dayIndex)).getD 0 = 0 then
                 "trip_start"
               else "day_" ++ toString ((((dayRunBoundaries p).getLast?).map (·.dayIndex)).getD 0)
                 ++ "_close",
             toLabel := "pending", km := 0, closeOdo := none, status := .pending }] := by
      unfold computeDayRuns
      rw [hoe]
      simp only [if_pos hnn]
    exact ⟨_, _, hc, rfl, rfl, fun x hx => buildDays_status _ _ _ x hx⟩

/-- C1 amended witness: the end-to-end example of the spec (two confirmed
day runs of 50 km and 150 km summing to 200) and an open-trip variant whose
last day run is pending. -/
theorem c1_computeDayRuns_boundary_spec_witness :
    (((computeDayRuns ⟨1000, [⟨1000, "r1", 1050⟩], [⟨2000, "r1", true, some 1⟩],
        some 1200⟩).map (·.km)).sum = 1200 - 1000) ∧
    (∃ ds r, computeDayRuns ⟨1000, [⟨1000, "r1", 1050⟩], [⟨2000, "r1", true, some 1⟩], none⟩
        = ds ++ [r] ∧
      r.status = DayStatus.pending ∧ r.km = 0 ∧ ∀ x ∈ ds, x.status = DayStatus.confirmed) :=
  ⟨((c1_computeDayRuns_boundary_spec _ (by decide)).1 1200 rfl).1,
    (c1_computeDayRuns_boundary_spec _ (by decide)).2 rfl⟩

/-! Event store (db/repositories.ts). Events live in a Dexie table keyed by
id; the meta table rows used by the claims (activeTripId and the pending
expressway prompt/decision) are modelled as typed fields of the store. An
absent extras object and an extras object without fields are observationally
equal in the source (every access is optional-chained), so extras is a
record of optional fields. Throwing functions return the error message
together with the unchanged store. Generated uuids and the current time are
explicit arguments. -/

inductive EventType
  | trip_start | trip_end | rest_start | rest_end | break_start | break_end
  | load_start | load_end | unload_start | unload_end | refuel | boarding
  | expressway | expressway_start | expressway_end | point_mark
  deriving DecidableEq, Repr

inductive SyncStatus
  | pending | synced | error
  deriving DecidableEq, Repr

structure Geo where
  lat : Rat
  lng : Rat
  accuracy : Option Rat := none
  deriving DecidableEq, Repr

structure Extras where
  odoKm : Option Int := none
  totalKm : Option Int := none
  lastLegKm : Option Int := none
  restSessionId : Option String := none
  breakSessionId : Option String := none
  loadSessionId : Option String := none
  unloadSessionId : Option String := none
  expresswaySessionId : Option String := none
  dayClose : Option Bool := none
  dayIndex : Option Int := none
  liters : Option Int := none
  icResolveStatus : Option String := none
  icName : Option String := none
  icDistanceM : Option Int := none
  deriving DecidableEq, Repr

structure Event where
  id : String
  tripId : String
  type : EventType
  ts : Int
  geo : Option Geo := none
  address : Option String := none
  syncStatus : SyncStatus := .pending
  extras : Extras := {}
  deriving DecidableEq, Repr

structure PendingPrompt where
  tripId : String
  speedKmh : Int
  detectedAt : Int
  geo : Geo
  deriving DecidableEq, Repr

inductive DecisionAction
  | endAction | keep
  deriving DecidableEq, Repr

structure PendingDecision where
  tripId : String
  action : DecisionAction
  decidedAt : Int
  speedKmh : Option Int := none
  geo : Option Geo := none
  deriving DecidableEq, Repr

structure Store where
  events : List Event
  activeTripId : Option String := none
  pendingEndPrompt : Option PendingPrompt := none
  pendingEndDecision : Option PendingDecision := none
  deriving DecidableEq, Repr

/-- db.events.put: upsert by primary key id. -/
def dbPut (e : Event) (events : List Event) : List Event :=
  if events.any (fun x => decide (x.id = e.id)) then
    events.map (fun x => if x.id = e.id then e else x)
  else events ++ [e]

/-- db.events.update(id, changes) restricted to the extras field. -/
def dbUpdateExtras (id : String) (extras : Extras) (events : List Event) : List Event :=
  events.map (fun e => if e.id = id then { e with extras := extras } else e)

/-- getEventsByTripId: events of the trip, sorted chronologically. -/
def getEventsByTripId (st : Store) (tripId : String) : List Event :=
  (st.events.filter (fun e => decide (e.tripId = tripId))).insertionSort
    (fun a b => a.ts ≤ b.ts)

/-- Existence query db.events.where([tripId+type]).equals([tid, ty]).first(). -/
def tripHasType (st : Store) (tid : String) (ty : EventType) : Bool :=
  st.events.any (fun e => decide (e.tripId = tid) && decide (e.type = ty))

/-- The newest-first scan of getActiveTripId: latest trip_start without a
trip_end, refreshing the cached pointer. -/
def scanActiveTrip (st : Store) : Option String × Store :=
  match ((st.events.filter (fun e => decide (e.type = EventType.trip_start))).insertionSort
      (fun a b => b.ts ≤ a.ts)).find? (fun s => ! tripHasType st s.tripId .trip_end) with
  | some s => (some s.tripId, { st with activeTripId := some s.tripId })
  | none => (none, st)

/-- getActiveTripId (db/repositories.ts lines 90-111). -/
def getActiveTripId (st : Store) : Option String × Store :=
  match st.activeTripId with
  | some tid =>
    if tripHasType st tid .trip_start && ! tripHasType st tid .trip_end then
      (some tid, st)
    else
      scanActiveTrip { st with activeTripId := none }
  | none => scanActiveTrip st

inductive SessKey
  | restS | breakS | loadS | unloadS | expressS
  deriving DecidableEq, Repr

def Extras.sessionVal (x : Extras) : SessKey → Option String
  | .restS => x.restSessionId
  | .breakS => x.breakSessionId
  | .loadS => x.loadSessionId
  | .unloadS => x.unloadSessionId
  | .expressS => x.expresswaySessionId

/-- findOpenToggleSessionId (db/repositories.ts lines 365-385). -/
def findOpenToggleSessionId (events : List Event) (startType endType : EventType)
    (key : SessKey) : Option String :=
  let starts := (events.filter (fun e => decide (e.type = startType))).insertionSort
      (fun a b => a.ts ≤ b.ts)
  let ends := events.filter (fun e => decide (e.type = endType))
  match starts.reverse.findSome? (fun s =>
      match s.extras.sessionVal key with
      | none => none
      | some sid =>
        if ends.any (fun en => decide (en.extras.sessionVal key = some sid)) then none
        else some sid) with
  | some sid => some sid
  | none =>
    match starts.getLast? with
    | some lastS =>
      if ends.any (fun en => decide (lastS.ts < en.ts)) then none else some "__legacy__"
    | none => none

def baseEvent (tripId : String) (ty : EventType) (geo : Option Geo)
    (address : Option String) (extras : Extras) (id : String) (now : Int) : Event :=
  { id := id, tripId := tripId, type := ty, ts := now, geo := geo, address := address,
    syncStatus := .pending, extras := extras }

/-- startLoad (db/repositories.ts lines 388-402). -/
def startLoad (tripId : String) (geo : Option Geo) (address : Option String)
    (loadSessionId eventId : String) (now : Int) (st : Store) : Except String String × Store :=
  let events := getEventsByTripId st tripId
  match findOpenToggleSessionId events .load_start .load_end .loadS with
  | some _ => (.error "積込がすでに開始されています（終了してください）", st)
  | none =>
    let e := baseEvent tripId .load_start geo address { loadSessionId := some loadSessionId }
      eventId now
    (.ok loadSessionId, { st with events := dbPut e st.events })

/-- startUnload (db/repositories.ts lines 419-433). -/
def startUnload (tripId : String) (geo : Option Geo) (address : Option String)
    (unloadSessionId eventId : String) (now : Int) (st : Store) : Except String String × Store :=
  let events := getEventsByTripId st tripId
  match findOpenToggleSessionId events .unload_start .unload_end .unloadS with
  | some _ => (.error "荷卸がすでに開始されています（終了してください）", st)
  | none =>
    let e := baseEvent tripId .unload_start geo address { unloadSessionId := some unloadSessionId }
      eventId now
    (.ok unloadSessionId, { st with events := dbPut e st.events })

/-- startBreak (db/repositories.ts lines 450-464). -/
def startBreak (tripId : String) (geo : Option Geo) (address : Option String)
    (breakSessionId eventId : String) (now : Int) (st : Store) : Except String String × Store :=
  let events := getEventsByTripId st tripId
  match findOpenToggleSessionId events .break_start .break_end .breakS with
  | some _ => (.error "休憩がすでに開始されています（終了してください）", st)
  | none =>
    let e := baseEvent tripId .break_start geo address { breakSessionId := some breakSessionId }
      eventId now
    (.ok breakSessionId, { st with events := dbPut e st.events })

/-- startExpressway (db/repositories.ts lines 512-526). -/
def startExpressway (tripId : String) (geo : Option Geo) (address : Option String)
    (expresswaySessionId eventId : String) (now : Int) (st : Store) :
    Except String (String × String) × Store :=
  let events := getEventsByTripId st tripId
  match findOpenToggleSessionId events .expressway_start .expressway_end .expressS with
  | some _ => (.error "高速道路が開始済みです（終了を押してください）", st)
  | none =>
    let e := baseEvent tripId .expressway_start geo address
      { expresswaySessionId := some expresswaySessionId, icResolveStatus := some "pending" }
      eventId now
    (.ok (expresswaySessionId, eventId), { st with events := dbPut e st.events })

/-- endExpressway (db/repositories.ts lines 528-541). -/
def endExpressway (tripId : String) (geo : Option Geo) (address : Option String)
    (eventId : String) (now : Int) (st : Store) : Except String String × Store :=
  let events := getEventsByTripId st tripId
  match findOpenToggleSessionId events .expressway_start .expressway_end .expressS with
  | none => (.error "高速道路が開始されていません", st)
  | some sid =>
    let extras : Extras :=
      if sid = "__legacy__" then { icResolveStatus := some "pending" }
      else { expresswaySessionId := some sid, icResolveStatus := some "pending" }
    let e := baseEvent tripId .expressway_end geo address extras eventId now
    (.ok eventId, { st with events := dbPut e st.events })

def isOdoCheckpointType : EventType → Bool
  | .rest_start => true
  | .trip_start => true
  | .trip_end => true
  | _ => false

/-- findLatestOdoCheckpoint (db/repositories.ts lines 331-339): odometer of
the newest checkpoint-type event. -/
def findLatestOdoCheckpoint (events : List Event) : Option Int :=
  ((events.insertionSort (fun a b => b.ts ≤ a.ts)).find?
      (fun e => isOdoCheckpointType e.type)).bind
    (fun e => e.extras.odoKm)

/-- startRest (db/repositories.ts lines 257-282): validates only that the
odometer is not decreasing; it does not check for an open rest session. -/
def startRest (tripId : String) (odoKm : Int) (geo : Option Geo) (address : Option String)
    (restSessionId eventId : String) (now : Int) (st : Store) : Except String String × Store :=
  let events := getEventsByTripId st tripId
  if (match findLatestOdoCheckpoint events with
      | some l => decide (odoKm < l)
      | none => false) then
    (.error "休息開始メーターが前回メーターより小さいため保存できません", st)
  else
    let e := baseEvent tripId .rest_start geo address
      { restSessionId := some restSessionId, odoKm := some odoKm } eventId now
    (.ok restSessionId, { st with events := dbPut e st.events })

/-- endTrip (db/repositories.ts lines 211-253): validates the end odometer
against the trip start and the last rest start before writing anything. -/
def endTrip (tripId : String) (odoEndKm : Int) (geo : Option Geo) (address : Option String)
    (eventId : String) (now : Int) (st : Store) : Except String Event × Store :=
  let events := getEventsByTripId st tripId
  match events.find? (fun e => decide (e.type = EventType.trip_start)) with
  | none => (.error "trip_start が存在しません", st)
  | some start =>
    let restStarts := (events.filter (fun e => decide (e.type = EventType.rest_start))).insertionSort
        (fun a b => a.ts ≤ b.ts)
    let lastRestStartOdo := (restStarts.getLast?).bind (fun e => e.extras.odoKm)
    if (match start.extras.odoKm with
        | some so => decide (odoEndKm < so)
        | none => false) then
      (.error "運行終了メーターが運行開始より小さいため保存できません", st)
    else if (match lastRestStartOdo with
        | some r => decide (odoEndKm < r)
        | none => false) then
      (.error "運行終了メーターが最後の休息開始メーターより小さいため保存できません", st)
    else
      let totals := computeTotals
        { odoStart := start.extras.odoKm.getD 0, odoEnd := odoEndKm,
          lastRestStartOdo := lastRestStartOdo }
      let e : Event :=
        { id := eventId, tripId := tripId, type := .trip_end, ts := now, geo := geo,
          address := address, syncStatus := .pending,
          extras := { odoKm := some odoEndKm, totalKm := some totals.totalKm,
                      lastLegKm := some totals.lastLegKm } }
      (.ok e, { st with events := dbPut e st.events, activeTripId := none })

/-- Truthiness of (e as RestEndEvent).extras?.dayClose. -/
def isDayCloseEvent (e : Event) : Bool :=
  decide (e.type = EventType.rest_end) && e.extras.dayClose.getD false

def setDayIndex (x : Extras) (i : Int) : Extras :=
  { x with dayIndex := some i }

/-- The dayClose rest_end events of a trip in timestamp order (the
events/dayCloses/sorted pipeline at the head of rebalanceDayCloseIndices). -/
def sortedDayCloses (st : Store) (tripId : String) : List Event :=
  ((getEventsByTripId st tripId).filter isDayCloseEvent).insertionSort (fun a b => a.ts ≤ b.ts)

/-- rebalanceDayCloseIndices (db/repositories.ts lines 688-700): renumber the
dayClose rest_end events of the trip as 1..N in timestamp order. -/
def rebalanceDayCloseIndices (tripId : String) (st : Store) : Store :=
  let sorted := sortedDayCloses st tripId
  let updated := sorted.enum.foldl
    (fun acc ie => dbUpdateExtras ie.2.id (setDayIndex ie.2.extras (Int.ofNat ie.1 + 1)) acc)
    st.events
  { st with events := updated }

/-- deleteEvent (db/repositories.ts lines 652-658): trip_start cannot be
deleted; a successful delete triggers the day-index rebalance. -/
def deleteEvent (eventId : String) (st : Store) : Except String Unit × Store :=
  match st.events.find? (fun e => decide (e.id = eventId)) with
  | none => (.ok (), st)
  | some ev =>
    if ev.type = .trip_start then
      (.error "運行開始イベントは削除できません（運行ごと削除してください）", st)
    else
      let st1 := { st with events := st.events.filter (fun e => ! decide (e.id = eventId)) }
      (.ok (), rebalanceDayCloseIndices ev.tripId st1)

/-- updateEventTimestamp (db/repositories.ts lines 123-128). -/
def updateEventTimestamp (eventId : String) (ts : Int) (st : Store) :
    Except String Unit × Store :=
  match st.events.find? (fun e => decide (e.id = eventId)) with
  | none => (.error "イベントが見つかりません", st)
  | some ev =>
    let updated := st.events.map
      (fun e => if e.id = eventId then { e with ts := ts, syncStatus := .pending } else e)
    let st1 := { st with events := updated }
    (.ok (), rebalanceDayCloseIndices ev.tripId st1)

/-! Claim theorems for the trip/session resolver and the validated writes. -/

instance : IsTotal Event (fun a b => b.ts ≤ a.ts) :=
  ⟨fun a b => Or.symm (Int.le_total a.ts b.ts)⟩

instance : IsTrans Event (fun a b => b.ts ≤ a.ts) :=
  ⟨fun _ _ _ hab hbc => Int.le_trans hbc hab⟩

lemma find?_desc_max (l : List Event) (hs : l.Sorted (fun a b => b.ts ≤ a.ts))
    (p : Event → Bool) (s : Event) (hf : l.find? p = some s) :
    ∀ f ∈ l, p f = true → f.ts ≤ s.ts := by
  induction l with
  | nil => simp at hf
  | cons a rest ih =>
    rw [List.find?_cons] at hf
    by_cases hpa : p a = true
    · simp only [hpa, Option.some.injEq] at hf
      intro f hfm _
      rcases List.mem_cons.mp hfm with h | h
      · subst h; rw [← hf]
      · rw [← hf]; exact (List.sorted_cons.mp hs).1 f h
    · rw [Bool.not_eq_true] at hpa
      simp only [hpa] at hf
      intro f hfm hpf
      rcases List.mem_cons.mp hfm with h | h
      · subst h; rw [hpa] at hpf; exact absurd hpf (by simp)
      · exact ih (List.sorted_cons.mp hs).2 hf f h hpf

/-- The cached pointer denotes a trip with a trip_start and no trip_end. -/
def cacheValid (st : Store) (tid : String) : Prop :=
  tripHasType st tid .trip_start = true ∧ tripHasType st tid .trip_end = false

lemma tripHasType_set_active (st : Store) (a : Option String) (tid : String) (ty : EventType) :
    tripHasType { st with activeTripId := a } tid ty = tripHasType st tid ty := rfl

lemma mem_scan_starts (st : Store) (e : Event) :
    e ∈ (st.events.filter (fun x => decide (x.type = EventType.trip_start))).insertionSort
        (fun a b => b.ts ≤ a.ts) ↔
      e ∈ st.events ∧ e.type = EventType.trip_start := by
  rw [List.mem_insertionSort, List.mem_filter, decide_eq_true_eq]

lemma scanActiveTrip_eq_some (st : Store) (s : Event)
    (hf : ((st.events.filter (fun x => decide (x.type = EventType.trip_start))).insertionSort
        (fun a b => b.ts ≤ a.ts)).find? (fun x => ! tripHasType st x.tripId .trip_end)
      = some s) :
    scanActiveTrip st = (some s.tripId, { st with activeTripId := some s.tripId }) := by
  unfold scanActiveTrip
  rw [hf]

lemma scanActiveTrip_eq_none (st : Store)
    (hf : ((st.events.filter (fun x => decide (x.type = EventType.trip_start))).insertionSort
        (fun a b => b.ts ≤ a.ts)).find? (fun x => ! tripHasType st x.tripId .trip_end)
      = none) :
    scanActiveTrip st = (none, st) := by
  unfold scanActiveTrip
  rw [hf]

lemma scanActiveTrip_none_iff (st : Store) :
    (scanActiveTrip st).1 = none ↔
      ∀ e ∈ st.events, e.type = EventType.trip_start →
        tripHasType st e.tripId EventType.trip_end = true := by
  cases hf : ((st.events.filter (fun x => decide (x.type = EventType.trip_start))).insertionSort
      (fun a b => b.ts ≤ a.ts)).find? (fun x => ! tripHasType st x.tripId .trip_end) with
  | some s =>
    rw [scanActiveTrip_eq_some st s hf]
    constructor
    · intro h; simp at h
    · intro h
      have hm := List.mem_of_find?_eq_some hf
      have hp := List.find?_some hf
      rw [Bool.not_eq_eq_eq_not, Bool.not_true] at hp
      obtain ⟨hmem, hty⟩ := (mem_scan_starts st s).mp hm
      exact absurd (h s hmem hty) (by simp [hp])
  | none =>
    rw [scanActiveTrip_eq_none st hf]
    constructor
    · intro _ e hmem hty
      have hall := List.find?_eq_none.mp hf
      have := hall e ((mem_scan_starts st e).mpr ⟨hmem, hty⟩)
      simpa using this
    · intro _; rfl

lemma scanActiveTrip_some (st : Store) (tid : String)
    (h : (scanActiveTrip st).1 = some tid) :
    ∃ e ∈ st.events, e.type = EventType.trip_start ∧ e.tripId = tid ∧
      tripHasType st tid EventType.trip_end = false ∧
      ∀ f ∈ st.events, f.type = EventType.trip_start →
        tripHasType st f.tripId EventType.trip_end = false → f.ts ≤ e.ts := by
  cases hf : ((st.events.filter (fun x => decide (x.type = EventType.trip_start))).insertionSort
      (fun a b => b.ts ≤ a.ts)).find? (fun x => ! tripHasType st x.tripId .trip_end) with
  | none => rw [scanActiveTrip_eq_none st hf] at h; simp at h
  | some s =>
    rw [scanActiveTrip_eq_some st s hf] at h
    simp only [Option.some.injEq] at h
    have hm := List.mem_of_find?_eq_some hf
    have hp := List.find?_some hf
    rw [Bool.not_eq_eq_eq_not, Bool.not_true] at hp
    obtain ⟨hmem, hty⟩ := (mem_scan_starts st s).mp hm
    refine ⟨s, hmem, hty, h, by rw [← h]; exact hp, ?_⟩
    intro f hfm hfty hfend
    have hsorted := List.sorted_insertionSort (fun a b : Event => b.ts ≤ a.ts)
      (st.events.filter (fun x => decide (x.type = EventType.trip_start)))
    exact find?_desc_max _ hsorted _ s hf f ((mem_scan_starts st f).mpr ⟨hfm, hfty⟩)
      (by simp [hfend])

/-- C2 amended: getActiveTripId returns none iff every trip_start has a
matching trip_end; a cached pointer that still denotes an unmatched
trip_start is returned as is (even if a newer unmatched trip_start exists);
any other result is the tripId of a most recent unmatched trip_start. -/
theorem c2_getActiveTripId_spec (st : Store) :
    ((getActiveTripId st).1 = none ↔
      ∀ e ∈ st.events, e.type = EventType.trip_start →
        tripHasType st e.tripId EventType.trip_end = true) ∧
    (∀ tid, st.activeTripId = some tid → cacheValid st tid →
      (getActiveTripId st).1 = some tid) ∧
    (∀ tid, (getActiveTripId st).1 = some tid →
      (st.activeTripId = some tid ∧ cacheValid st tid) ∨
      (∃ e ∈ st.events, e.type = EventType.trip_start ∧ e.tripId = tid ∧
        tripHasType st tid EventType.trip_end = false ∧
        ∀ f ∈ st.events, f.type = EventType.trip_start →
          tripHasType st f.tripId EventType.trip_end = false → f.ts ≤ e.ts)) := by
  refine ⟨?_, ?_, ?_⟩
  · cases hc : st.activeTripId with
    | none =>
      simp only [getActiveTripId, hc]
      exact scanActiveTrip_none_iff st
    | some tid =>
      simp only [getActiveTripId, hc]
      by_cases hv : (tripHasType st tid .trip_start && ! tripHasType st tid .trip_end) = true
      · rw [if_pos hv]
        simp only [Bool.and_eq_true, Bool.not_eq_eq_eq_not, Bool.not_true] at hv
        constructor
        · intro h; simp at h
        · intro h
          obtain ⟨e, hmem, hty, htid⟩ : ∃ e ∈ st.events, e.type = EventType.trip_start ∧
              e.tripId = tid := by
            have := hv.1
            unfold tripHasType at this
            rw [List.any_eq_true] at this
            obtain ⟨e, hmem, hpe⟩ := this
            rw [Bool.and_eq_true, decide_eq_true_eq, decide_eq_true_eq] at hpe
            exact ⟨e, hmem, hpe.2, hpe.1⟩
          have := h e hmem hty
          rw [htid] at this
          rw [this] at hv
          exact absurd hv.2 (by simp)
      · rw [if_neg hv]
        have h1 := scanActiveTrip_none_iff { st with activeTripId := none }
        simpa using h1
  · intro tid hc hvalid
    simp only [getActiveTripId, hc]
    rw [if_pos (by rw [hvalid.1, hvalid.2]; rfl)]
  · intro tid hres
    cases hc : st.activeTripId with
    | none =>
      simp only [getActiveTripId, hc] at hres
      exact Or.inr (by simpa using scanActiveTrip_some st tid hres)
    | some t =>
      simp only [getActiveTripId, hc] at hres
      by_cases hv : (tripHasType st t .trip_start && ! tripHasType st t .trip_end) = true
      · rw [if_pos hv] at hres
        simp only [Option.some.injEq] at hres
        subst hres
        simp only [Bool.and_eq_true, Bool.not_eq_eq_eq_not, Bool.not_true] at hv
        exact Or.inl ⟨rfl, hv.1, hv.2⟩
      · rw [if_neg hv] at hres
        exact Or.inr (by simpa using scanActiveTrip_some { st with activeTripId := none } tid hres)

/-- Store with two unmatched trip_starts where the cached pointer holds the
older one. -/
def c2Store : Store :=
  { events := [{ id := "e1", tripId := "A", type := .trip_start, ts := 1 },
               { id := "e2", tripId := "B", type := .trip_start, ts := 2 }],
    activeTripId := some "A" }

/-- C2 as stated is false on the code: with two unmatched trip_starts and
the cached pointer still denoting the older one, getActiveTripId returns
the cached trip although a strictly newer unmatched trip_start exists. -/
theorem c2_counterexample :
    (getActiveTripId c2Store).1 = some "A" ∧
    (∃ e ∈ c2Store.events, e.type = EventType.trip_start ∧
      tripHasType c2Store e.tripId EventType.trip_end = false ∧
      ∀ f ∈ c2Store.events, f.tripId = "A" → f.ts < e.ts) := by
  decide

/-- C2 witness: the cached-pointer clause of the theorem instantiated on the
concrete store. -/
theorem c2_getActiveTripId_spec_witness :
    (getActiveTripId c2Store).1 = some "A" :=
  (c2_getActiveTripId_spec c2Store).2.1 "A" rfl ⟨by decide, by decide⟩

/-- C5 amended: for the break, load, unload and expressway categories, the
start operation fails with a descriptive error and leaves the store
unchanged whenever a session of that category is already open; startRest
performs no such check (see the counterexample). -/
theorem c5_toggle_start_guard (st : Store) (tripId : String) (geo : Option Geo)
    (addr : Option String) (sid eid : String) (now : Nat) :
    (findOpenToggleSessionId (getEventsByTripId st tripId) .load_start .load_end .loadS ≠ none →
      ∃ msg, startLoad tripId geo addr sid eid now st = (.error msg, st)) ∧
    (findOpenToggleSessionId (getEventsByTripId st tripId) .break_start .break_end .breakS ≠ none →
      ∃ msg, startBreak tripId geo addr sid eid now st = (.error msg, st)) ∧
    (findOpenToggleSessionId (getEventsByTripId st tripId) .unload_start .unload_end .unloadS
        ≠ none →
      ∃ msg, startUnload tripId geo addr sid eid now st = (.error msg, st)) ∧
    (findOpenToggleSessionId (getEventsByTripId st tripId) .expressway_start .expressway_end
        .expressS ≠ none →
      ∃ msg, startExpressway tripId geo addr sid eid now st = (.error msg, st)) := by
  refine ⟨?_, ?_, ?_, ?_⟩
  · intro h
    cases ho : findOpenToggleSessionId (getEventsByTripId st tripId) .load_start .load_end
        .loadS with
    | none => exact absurd ho h
    | some o => exact ⟨_, by simp only [startLoad, ho]; rfl⟩
  · intro h
    cases ho : findOpenToggleSessionId (getEventsByTripId st tripId) .break_start .break_end
        .breakS with
    | none => exact absurd ho h
    | some o => exact ⟨_, by simp only [startBreak, ho]; rfl⟩
  · intro h
    cases ho : findOpenToggleSessionId (getEventsByTripId st tripId) .unload_start .unload_end
        .unloadS with
    | none => exact absurd ho h
    | some o => exact ⟨_, by simp only [startUnload, ho]; rfl⟩
  · intro h
    cases ho : findOpenToggleSessionId (getEventsByTripId st tripId) .expressway_start
        .expressway_end .expressS with
    | none => exact absurd ho h
    | some o => exact ⟨_, by simp only [startExpressway, ho]; rfl⟩

/-- Store for trip A with one open session of every toggle category: an
unended rest, break, load, unload and expressway start. -/
def c5OpenStore : Store :=
  { events := [{ id := "t1", tripId := "A", type := .trip_start, ts := 1,
                 extras := { odoKm := some 50 } },
               { id := "r1", tripId := "A", type := .rest_start, ts := 2,
                 extras := { restSessionId := some "rs1", odoKm := some 100 } },
               { id := "b1", tripId := "A", type := .break_start, ts := 3,
                 extras := { breakSessionId := some "bs1" } },
               { id := "l1", tripId := "A", type := .load_start, ts := 4,
                 extras := { loadSessionId := some "ls1" } },
               { id := "u1", tripId := "A", type := .unload_start, ts := 5,
                 extras := { unloadSessionId := some "us1" } },
               { id := "x1", tripId := "A", type := .expressway_start, ts := 6,
                 extras := { expresswaySessionId := some "xs1",
                             icResolveStatus := some "pending" } }] }

/-- C5 as stated is false on the code for the rest category: with an open
rest session, startRest succeeds and persists a second rest_start (it only
validates the odometer). -/
theorem c5_counterexample :
    findOpenToggleSessionId (getEventsByTripId c5OpenStore "A") .rest_start .rest_end .restS
        = some "rs1" ∧
    (startRest "A" 150 none none "rs2" "r2" 7 c5OpenStore).1 = .ok "rs2" ∧
    (startRest "A" 150 none none "rs2" "r2" 7 c5OpenStore).2.events.length
        = c5OpenStore.events.length + 1 := by
  decide

/-- C5 witness: the four guarded categories reject a second start on the
concrete store with open sessions. -/
theorem c5_toggle_start_guard_witness :
    (∃ msg, startLoad "A" none none "s" "e9" 9 c5OpenStore = (.error msg, c5OpenStore)) ∧
    (∃ msg, startBreak "A" none none "s" "e9" 9 c5OpenStore = (.error msg, c5OpenStore)) ∧
    (∃ msg, startUnload "A" none none "s" "e9" 9 c5OpenStore = (.error msg, c5OpenStore)) ∧
    (∃ msg, startExpressway "A" none none "s" "e9" 9 c5OpenStore = (.error msg, c5OpenStore)) :=
  ⟨(c5_toggle_start_guard c5OpenStore "A" none none "s" "e9" 9).1 (by decide),
   (c5_toggle_start_guard c5OpenStore "A" none none "s" "e9" 9).2.1 (by decide),
   (c5_toggle_start_guard c5OpenStore "A" none none "s" "e9" 9).2.2.1 (by decide),
   (c5_toggle_start_guard c5OpenStore "A" none none "s" "e9" 9).2.2.2 (by decide)⟩

/-- Last rest-start odometer of a trip, as endTrip computes it. -/
def lastRestOdoOfTrip (st : Store) (tripId : String) : Option Int :=
  ((((getEventsByTripId st tripId).filter
        (fun e => decide (e.type = EventType.rest_start))).insertionSort
      (fun a b => a.ts ≤ b.ts)).getLast?).bind
    (fun e => e.extras.odoKm)

/-- C6: endTrip with an end odometer below the trip-start odometer or below
the last rest-start odometer throws before writing: the returned store is
the input store, so no trip_end is persisted and the active-trip pointer is
unchanged. -/
theorem c6_endTrip_guard (st : Store) (tripId : String) (odoEndKm : Int)
    (geo : Option Geo) (addr : Option String) (eid : String) (now : Nat) (start : Event)
    (hstart : (getEventsByTripId st tripId).find?
        (fun e => decide (e.type = EventType.trip_start)) = some start)
    (hlt : (∃ so, start.extras.odoKm = some so ∧ odoEndKm < so) ∨
           (∃ r, lastRestOdoOfTrip st tripId = some r ∧ odoEndKm < r)) :
    ∃ msg, endTrip tripId odoEndKm geo addr eid now st = (.error msg, st) := by
  rcases hlt with ⟨so, hso, hlt2⟩ | ⟨r, hr, hlt2⟩
  · exact ⟨_, by simp only [endTrip, hstart, hso, decide_eq_true hlt2, if_pos]; rfl⟩
  · by_cases hfirst : (match start.extras.odoKm with
        | some so => decide (odoEndKm < so)
        | none => false) = true
    · exact ⟨_, by simp only [endTrip, hstart, if_pos hfirst]; rfl⟩
    · exact ⟨_, by
        simp only [endTrip, hstart, if_neg hfirst]
        rw [show (((getEventsByTripId st tripId).filter
              (fun e => decide (e.type = EventType.rest_start))).insertionSort
            (fun a b => a.ts ≤ b.ts)).getLast?.bind (fun e => e.extras.odoKm) = some r from hr]
        simp only [decide_eq_true hlt2, if_pos]
        rfl⟩

/-- Trip-start event of the C6 witness store. -/
def c6StartEvent : Event :=
  { id := "t1", tripId := "A", type := .trip_start, ts := 1, extras := { odoKm := some 1000 } }

/-- Store for trip A with start odometer 1000 and a later rest start at
odometer 1050, used to witness C6. -/
def c6Store : Store :=
  { events := [c6StartEvent,
               { id := "r1", tripId := "A", type := .rest_start, ts := 2,
                 extras := { restSessionId := some "rs1", odoKm := some 1050 } }],
    activeTripId := some "A" }

/-- C6 witness: ending trip A at odometer 1020 (below the last rest start at
1050) is rejected with the store unchanged. -/
theorem c6_endTrip_guard_witness :
    ∃ msg, endTrip "A" 1020 none none "e9" 9 c6Store = (.error msg, c6Store) :=
  c6_endTrip_guard c6Store "A" 1020 none none "e9" 9 c6StartEvent (by decide)
    (Or.inr ⟨1050, by decide, by decide⟩)

/-! Support lemmas for the day-index rebalance invariant (C7). -/

/-- The dayClose events of the trip, sorted by timestamp, carry dayIndex
values exactly 1..N. -/
def dayCloseCanonical (st : Store) (tripId : String) : Prop :=
  ∀ i x, (sortedDayCloses st tripId).get? i = some x →
    x.extras.dayIndex = some (Int.ofNat i + 1)

/-- Pointwise form of the per-id updates performed by the rebalance fold. -/
def reindexFun (S : List Event) (x : Event) : Event :=
  match S.enum.find? (fun ie => decide (ie.2.id = x.id)) with
  | some ie => { x with extras := setDayIndex ie.2.extras (Int.ofNat ie.1 + 1) }
  | none => x

lemma reindexFun_id (S : List Event) (x : Event) : (reindexFun S x).id = x.id := by
  unfold reindexFun
  cases S.enum.find? (fun ie => decide (ie.2.id = x.id)) <;> rfl

lemma reindexFun_tripId (S : List Event) (x : Event) : (reindexFun S x).tripId = x.tripId := by
  unfold reindexFun
  cases S.enum.find? (fun ie => decide (ie.2.id = x.id)) <;> rfl

lemma reindexFun_ts (S : List Event) (x : Event) : (reindexFun S x).ts = x.ts := by
  unfold reindexFun
  cases S.enum.find? (fun ie => decide (ie.2.id = x.id)) <;> rfl

lemma reindexFun_eq_some (S : List Event) (x : Event) (ie : Nat × Event)
    (h : S.enum.find? (fun ie => decide (ie.2.id = x.id)) = some ie) :
    reindexFun S x = { x with extras := setDayIndex ie.2.extras (Int.ofNat ie.1 + 1) } := by
  unfold reindexFun
  rw [h]

lemma reindexFun_eq_none (S : List Event) (x : Event)
    (h : S.enum.find? (fun ie => decide (ie.2.id = x.id)) = none) :
    reindexFun S x = x := by
  unfold reindexFun
  rw [h]

lemma foldl_dbUpdateExtras (as : List (Nat × Event)) :
    ∀ (l : List Event), ((as.map (fun ie => ie.2.id)).Nodup) →
    as.foldl
        (fun acc ie => dbUpdateExtras ie.2.id (setDayIndex ie.2.extras (Int.ofNat ie.1 + 1)) acc)
        l
      = l.map (fun x =>
          match as.find? (fun ie => decide (ie.2.id = x.id)) with
          | some ie => { x with extras := setDayIndex ie.2.extras (Int.ofNat ie.1 + 1) }
          | none => x) := by
  induction as with
  | nil =>
    intro l _
    simp [List.find?_nil]
  | cons hd rest ih =>
    intro l hnd
    rw [List.map_cons, List.nodup_cons] at hnd
    obtain ⟨hni, hnd2⟩ := hnd
    rw [List.foldl_cons, ih _ hnd2]
    unfold dbUpdateExtras
    rw [List.map_map]
    refine List.map_congr_left ?_
    intro x _
    simp only [Function.comp]
    by_cases hx : x.id = hd.2.id
    · have h1 : rest.find? (fun ie => decide (ie.2.id = x.id)) = none := by
        refine List.find?_eq_none.mpr ?_
        intro a ha
        simp only [decide_eq_true_eq]
        intro heq
        have hmm : a.2.id ∈ rest.map (fun ie => ie.2.id) :=
          List.mem_map_of_mem (fun ie => ie.2.id) ha
        rw [heq, hx] at hmm
        exact hni hmm
      have h2 : decide (hd.2.id = x.id) = true := by simp [hx]
      simp only [if_pos hx, List.find?_cons, h2, h1]
    · have h2 : decide (hd.2.id = x.id) = false := by
        simp only [decide_eq_false_iff_not]
        exact fun h => hx h.symm
      simp only [if_neg hx, List.find?_cons, h2]

lemma enum_map_snd_id (S : List Event) :
    S.enum.map (fun ie => ie.2.id) = S.map (fun e => e.id) := by
  have h1 : S.enum.map (fun ie => ie.2.id)
      = (S.enum.map Prod.snd).map (fun e => e.id) := by
    rw [List.map_map]; rfl
  rw [h1, List.enum_map_snd]

lemma getEventsByTripId_nodup_ids (st : Store) (tripId : String)
    (hw : (st.events.map (fun e => e.id)).Nodup) :
    ((getEventsByTripId st tripId).map (fun e => e.id)).Nodup := by
  unfold getEventsByTripId
  have hperm := (List.perm_insertionSort (fun a b : Event => a.ts ≤ b.ts)
    (st.events.filter (fun e => decide (e.tripId = tripId)))).map (fun e => e.id)
  rw [hperm.nodup_iff]
  exact List.Nodup.sublist ((List.filter_sublist st.events).map _) hw

lemma sortedDayCloses_nodup_ids (st : Store) (tripId : String)
    (hw : (st.events.map (fun e => e.id)).Nodup) :
    ((sortedDayCloses st tripId).map (fun e => e.id)).Nodup := by
  unfold sortedDayCloses
  have hperm := (List.perm_insertionSort (fun a b : Event => a.ts ≤ b.ts)
    ((getEventsByTripId st tripId).filter isDayCloseEvent)).map (fun e => e.id)
  rw [hperm.nodup_iff]
  exact List.Nodup.sublist ((List.filter_sublist _).map _)
    (getEventsByTripId_nodup_ids st tripId hw)

lemma rebalance_events (st : Store) (tripId : String)
    (hw : (st.events.map (fun e => e.id)).Nodup) :
    (rebalanceDayCloseIndices tripId st).events
      = st.events.map (reindexFun (sortedDayCloses st tripId)) := by
  unfold rebalanceDayCloseIndices reindexFun
  exact foldl_dbUpdateExtras _ st.events
    (by rw [enum_map_snd_id]; exact sortedDayCloses_nodup_ids st tripId hw)

lemma orderedInsert_map (u : Event → Event) (hts : ∀ x, (u x).ts = x.ts) (a : Event) :
    ∀ (l : List Event),
      List.orderedInsert (fun a b => a.ts ≤ b.ts) (u a) (l.map u)
        = (List.orderedInsert (fun a b => a.ts ≤ b.ts) a l).map u := by
  intro l
  induction l with
  | nil => rfl
  | cons b t ih =>
    simp only [List.map_cons, List.orderedInsert]
    by_cases hab : a.ts ≤ b.ts
    · rw [if_pos (by rw [hts, hts]; exact hab), if_pos hab]
      simp
    · rw [if_neg (by rw [hts, hts]; exact hab), if_neg hab]
      simp only [List.map_cons]
      rw [ih]

lemma insertionSort_map (u : Event → Event) (hts : ∀ x, (u x).ts = x.ts) :
    ∀ (l : List Event),
      List.insertionSort (fun a b => a.ts ≤ b.ts) (l.map u)
        = (List.insertionSort (fun a b => a.ts ≤ b.ts) l).map u := by
  intro l
  induction l with
  | nil => rfl
  | cons a t ih =>
    simp only [List.map_cons, List.insertionSort]
    rw [ih, orderedInsert_map u hts]

lemma sortedDayCloses_map_events (st : Store) (tripId : String) (u : Event → Event)
    (hts : ∀ x, (u x).ts = x.ts) (htrip : ∀ x, (u x).tripId = x.tripId)
    (hp : ∀ x ∈ getEventsByTripId st tripId, isDayCloseEvent (u x) = isDayCloseEvent x) :
    sortedDayCloses { st with events := st.events.map u } tripId
      = (sortedDayCloses st tripId).map u := by
  have hByTrip : getEventsByTripId { st with events := st.events.map u } tripId
      = (getEventsByTripId st tripId).map u := by
    unfold getEventsByTripId
    have h1 : (st.events.map u).filter (fun e => decide (e.tripId = tripId))
        = (st.events.filter (fun e => decide (e.tripId = tripId))).map u := by
      rw [List.filter_map]
      congr 1
      refine List.filter_congr ?_
      intro x _
      simp only [Function.comp]
      rw [htrip]
    rw [show ({ st with events := st.events.map u } : Store).events = st.events.map u from rfl,
      h1, insertionSort_map u hts]
  unfold sortedDayCloses
  rw [hByTrip]
  have h2 : ((getEventsByTripId st tripId).map u).filter isDayCloseEvent
      = ((getEventsByTripId st tripId).filter isDayCloseEvent).map u := by
    rw [List.filter_map]
    congr 1
    exact List.filter_congr (fun x hx => by simp only [Function.comp]; exact hp x hx)
  rw [h2, insertionSort_map u hts]

lemma reindexFun_isDayClose (st : Store) (tripId : String)
    (hw : (st.events.map (fun e => e.id)).Nodup) :
    ∀ x ∈ getEventsByTripId st tripId,
      isDayCloseEvent (reindexFun (sortedDayCloses st tripId) x) = isDayCloseEvent x := by
  intro x hx
  cases hf : (sortedDayCloses st tripId).enum.find? (fun ie => decide (ie.2.id = x.id)) with
  | none => rw [reindexFun_eq_none _ _ hf]
  | some ie =>
    have hidq : ie.2.id = x.id := by
      have := List.find?_some hf
      rwa [decide_eq_true_eq] at this
    have hmem : ie.2 ∈ sortedDayCloses st tripId := by
      have hm := List.mem_of_find?_eq_some hf
      exact mem_of_mem_enumFrom _ 0 ie (by simpa [List.enum] using hm)
    have hmem2 : ie.2 ∈ (getEventsByTripId st tripId).filter isDayCloseEvent := by
      unfold sortedDayCloses at hmem
      exact (List.mem_insertionSort _).mp hmem
    have hmemN : ie.2 ∈ getEventsByTripId st tripId := (List.mem_filter.mp hmem2).1
    have hex : ie.2 = x :=
      List.inj_on_of_nodup_map (getEventsByTripId_nodup_ids st tripId hw) hmemN hx hidq
    rw [reindexFun_eq_some _ _ _ hf, hex]
    simp [isDayCloseEvent, setDayIndex]

lemma find?_enumFrom_self (S : List Event) :
    ∀ (hnd : (S.map (fun e => e.id)).Nodup) (n i : Nat) (y : Event), S.get? i = some y →
      (S.enumFrom n).find? (fun ie => decide (ie.2.id = y.id)) = some (n + i, y) := by
  induction S with
  | nil => intro _ n i y hy; simp at hy
  | cons a rest ih =>
    intro hnd n i y hy
    rw [List.map_cons, List.nodup_cons] at hnd
    obtain ⟨hni, hnd2⟩ := hnd
    cases i with
    | zero =>
      rw [List.get?_cons_zero, Option.some.injEq] at hy
      subst hy
      simp [List.enumFrom, List.find?_cons]
    | succ j =>
      rw [List.get?_cons_succ] at hy
      have hmem : y ∈ rest := List.get?_mem hy
      have hne : decide (a.id = y.id) = false := by
        simp only [decide_eq_false_iff_not]
        intro heq
        exact hni (heq ▸ List.mem_map_of_mem (fun e => e.id) hmem)
      simp only [List.enumFrom, List.find?_cons, hne]
      rw [ih hnd2 (n + 1) j y hy]
      have harith : n + 1 + j = n + (j + 1) := by omega
      rw [harith]

/-- Core invariant: after rebalanceDayCloseIndices, the dayClose events of
the trip carry dayIndex 1..N in timestamp order. -/
lemma rebalance_canonical (st : Store) (tripId : String)
    (hw : (st.events.map (fun e => e.id)).Nodup) :
    dayCloseCanonical (rebalanceDayCloseIndices tripId st) tripId := by
  have hev := rebalance_events st tripId hw
  have hcongr : sortedDayCloses (rebalanceDayCloseIndices tripId st) tripId
      = sortedDayCloses { st with events := st.events.map (reindexFun (sortedDayCloses st tripId)) } tripId := by
    unfold sortedDayCloses getEventsByTripId
    rw [hev]
    rfl
  have hmap := sortedDayCloses_map_events st tripId (reindexFun (sortedDayCloses st tripId))
    (reindexFun_ts _) (reindexFun_tripId _) (reindexFun_isDayClose st tripId hw)
  intro i x hx
  rw [hcongr, hmap, List.get?_map, Option.map_eq_some'] at hx
  obtain ⟨y, hy, hux⟩ := hx
  have hfind : (sortedDayCloses st tripId).enum.find?
      (fun ie => decide (ie.2.id = y.id)) = some (0 + i, y) :=
    find?_enumFrom_self (sortedDayCloses st tripId)
      (sortedDayCloses_nodup_ids st tripId hw) 0 i y hy
  rw [Nat.zero_add] at hfind
  rw [← hux, reindexFun_eq_some _ _ _ hfind]
  rfl

/-- C7: any deleteEvent call on an existing non-trip_start event and any
updateEventTimestamp call on an existing event trigger the day-index
rebalance, after which the dayClose rest_end events of the affected trip
carry dayIndex values exactly 1..N in chronological order. -/
theorem c7_mutations_canonical_dayIndices (st : Store)
    (hw : (st.events.map (fun e => e.id)).Nodup) (eventId : String) (ts : Int) (ev : Event)
    (hfind : st.events.find? (fun e => decide (e.id = eventId)) = some ev) :
    (ev.type ≠ .trip_start → dayCloseCanonical (deleteEvent eventId st).2 ev.tripId) ∧
    dayCloseCanonical (updateEventTimestamp eventId ts st).2 ev.tripId := by
  constructor
  · intro hty
    have hres : (deleteEvent eventId st).2 = rebalanceDayCloseIndices ev.tripId
        { st with events := st.events.filter (fun e => ! decide (e.id = eventId)) } := by
      simp only [deleteEvent, hfind, if_neg hty]
    rw [hres]
    apply rebalance_canonical
    show ((st.events.filter (fun e => ! decide (e.id = eventId))).map (fun e => e.id)).Nodup
    exact List.Nodup.sublist ((List.filter_sublist st.events).map _) hw
  · have hres : (updateEventTimestamp eventId ts st).2 = rebalanceDayCloseIndices ev.tripId
        { st with events := st.events.map (fun e =>
          if e.id = eventId then { e with ts := ts, syncStatus := .pending } else e) } := by
      simp only [updateEventTimestamp, hfind]
    rw [hres]
    apply rebalance_canonical
    show ((st.events.map (fun e =>
        if e.id = eventId then ({ e with ts := ts, syncStatus := .pending } : Event)
        else e)).map (fun e => e.id)).Nodup
    have hsame : (st.events.map (fun e =>
        if e.id = eventId then ({ e with ts := ts, syncStatus := .pending } : Event)
        else e)).map (fun e => e.id) = st.events.map (fun e => e.id) := by
      rw [List.map_map]
      refine List.map_congr_left ?_
      intro a _
      simp only [Function.comp]
      by_cases h : a.id = eventId
      · rw [if_pos h]
      · rw [if_neg h]
    rw [hsame]
    exact hw

/-- First dayClose rest_end of the C7 witness store. -/
def c7Ev1 : Event :=
  { id := "d1", tripId := "A", type := .rest_end, ts := 10,
    extras := { restSessionId := some "r1", dayClose := some true, dayIndex := some 1 } }

/-- Trip A with three dayClose rest_ends indexed 1, 2, 3, used to witness C7:
deleting the first one renumbers the remaining closes as 1, 2. -/
def c7Store : Store :=
  { events := [{ id := "t1", tripId := "A", type := .trip_start, ts := 1,
                 extras := { odoKm := some 0 } },
               c7Ev1,
               { id := "d2", tripId := "A", type := .rest_end, ts := 20,
                 extras := { restSessionId := some "r2", dayClose := some true,
                             dayIndex := some 2 } },
               { id := "d3", tripId := "A", type := .rest_end, ts := 30,
                 extras := { restSessionId := some "r3", dayClose := some true,
                             dayIndex := some 3 } }] }

/-- C7 witness: after deleting the first dayClose of the concrete store, the
remaining closes carry dayIndex 1..2 in timestamp order. -/
theorem c7_mutations_canonical_dayIndices_witness :
    dayCloseCanonical (deleteEvent "d1" c7Store).2 "A" :=
  (c7_mutations_canonical_dayIndices c7Store (by decide) "d1" 0 c7Ev1 (by decide)).1 (by decide)

/-! Signal fusion (services/routeTracking source, fuseSpeedKmh lines
327-345). JavaScript floating-point numbers are modelled as rationals. -/

/-- Base sensor weight of fuseSpeedKmh: 0.76 at tight accuracy, 0.4 at poor
accuracy, 0.62 otherwise or when accuracy is unknown. -/
def baseSensorWeight (accuracyM : Option Rat) : Rat :=
  match accuracyM with
  | some a => if a ≤ 12 then 76 / 100 else if 40 ≤ a then 40 / 100 else 62 / 100
  | none => 62 / 100

/-- fuseSpeedKmh: weight the sensor speed by accuracy, cap its weight at
0.35 when sensor and inferred speed disagree by 24 km/h or more, then
blend. -/
def fuseSpeedKmh (sensorSpeedKmh inferredSpeedKmh : Option Rat) (accuracyM : Option Rat) :
    Option Rat :=
  match sensorSpeedKmh, inferredSpeedKmh with
  | none, none => none
  | none, some i => some i
  | some s, none => some s
  | some s, some i =>
    let sensorWeight := baseSensorWeight accuracyM
    let sensorWeight := if 24 ≤ |s - i| then min sensorWeight (35 / 100) else sensorWeight
    some (s * sensorWeight + i * (1 - sensorWeight))

lemma baseSensorWeight_bounds (a : Option Rat) :
    0 ≤ baseSensorWeight a ∧ baseSensorWeight a ≤ 1 := by
  unfold baseSensorWeight
  cases a with
  | none => norm_num
  | some acc =>
    by_cases h12 : acc ≤ 12
    · simp only [if_pos h12]; norm_num
    · by_cases h40 : (40 : Rat) ≤ acc
      · simp only [if_neg h12, if_pos h40]; norm_num
      · simp only [if_neg h12, if_neg h40]; norm_num

lemma convex_between (s i w : Rat) (h0 : 0 ≤ w) (h1 : w ≤ 1) :
    min s i ≤ s * w + i * (1 - w) ∧ s * w + i * (1 - w) ≤ max s i := by
  rcases le_total s i with hsi | hsi
  · constructor
    · rw [min_eq_left hsi]
      nlinarith
    · rw [max_eq_right hsi]
      nlinarith
  · constructor
    · rw [min_eq_right hsi]
      nlinarith
    · rw [max_eq_left hsi]
      nlinarith

/-- C10: fuseSpeedKmh returns none iff both inputs are none; a single
non-null input is returned unchanged; and when both are present the result
is a convex combination lying between the two speeds for every accuracy. -/
theorem c10_fuseSpeedKmh_spec (s i : Rat) (a : Option Rat) :
    fuseSpeedKmh none none a = none ∧
    fuseSpeedKmh none (some i) a = some i ∧
    fuseSpeedKmh (some s) none a = some s ∧
    (∀ v, fuseSpeedKmh (some s) (some i) a = some v → min s i ≤ v ∧ v ≤ max s i) := by
  refine ⟨rfl, rfl, rfl, ?_⟩
  intro v hv
  unfold fuseSpeedKmh at hv
  simp only [Option.some.injEq] at hv
  rw [← hv]
  apply convex_between
  · by_cases hd : (24 : Rat) ≤ |s - i|
    · rw [if_pos hd]
      exact le_min (baseSensorWeight_bounds a).1 (by norm_num)
    · rw [if_neg hd]
      exact (baseSensorWeight_bounds a).1
  · by_cases hd : (24 : Rat) ≤ |s - i|
    · rw [if_pos hd]
      exact le_trans (min_le_left _ _) (baseSensorWeight_bounds a).2
    · rw [if_neg hd]
      exact (baseSensorWeight_bounds a).2

/-! Expressway detector (services/routeTracking source, lines 184-621).
The module-level activeTripId is assumed present (the step is a no-op
without it) and passed explicitly; the cached auto-expressway config is the
config argument; the awaited detectExpresswaySignal responses and the
generated uuids are oracle inputs of each step. Times are milliseconds. -/

/-- AutoExpresswayConfig (db/repositories.ts), post-normalization integers. -/
structure AutoExpresswayConfig where
  speedKmh : Int
  durationSec : Int
  endSpeedKmh : Int
  endDurationSec : Int
  deriving DecidableEq, Repr

/-- DEFAULT_AUTO_EXPRESSWAY_CONFIG (db/repositories.ts lines 130-135). -/
def DEFAULT_AUTO_EXPRESSWAY_CONFIG : AutoExpresswayConfig :=
  { speedKmh := 78, durationSec := 6, endSpeedKmh := 34, endDurationSec := 24 }

/-- AUTO_EXPRESSWAY_ACCEL_PROFILE constants. -/
def startAccelMs2 : Rat := 18 / 100
def startAccelWindowMs : Int := 75 * 1000
def endDecelMs2 : Rat := -28 / 100
def endDecelWindowMs : Int := 90 * 1000
def endPromptCooldownMs : Int := 45 * 1000
def endResetMarginKmh : Int := 8
def endResetHoldMs : Int := 20 * 1000

/-- Result of detectExpresswaySignal (services/icResolver.ts): road-graph
corroboration for a coordinate; nearestIc is (icName, distanceM). -/
structure SignalResult where
  resolved : Bool
  onExpresswayRoad : Bool := false
  nearIc : Bool := false
  nearEtcGate : Bool := false
  nearestIc : Option (String × Int) := none
  deriving DecidableEq, Repr

/-- The expresswayRuntime module state (routeTracking source lines 237-252). -/
structure ExpresswayRuntime where
  speedAboveSince : Option Int := none
  speedBelowSince : Option Int := none
  speedRecoveredSince : Option Int := none
  lastSpeedMs : Option Rat := none
  lastSpeedAt : Option Int := none
  lastStrongAccelAt : Option Int := none
  lastStrongAccelGeo : Option (Rat × Rat × Int) := none
  lastStrongDecelAt : Option Int := none
  smoothedSpeedKmh : Option Rat := none
  lastEndPromptAt : Int := 0
  lastKeepDecisionCheckAt : Int := 0
  endPromptOutstanding : Bool := false
  inFlight : Bool := false
  lastActionAt : Int := 0
  deriving DecidableEq, Repr

/-- The expresswayOpenCache module state. -/
structure OpenCache where
  tripId : Option String := none
  checkedAt : Int := 0
  isOpen : Bool := false
  deriving DecidableEq, Repr

/-- Detector state: module-level runtime and cache, the persistent store,
and logs of the native prompt surface calls (shown prompts, cancellations). -/
structure DetectorState where
  runtime : ExpresswayRuntime := {}
  openCache : OpenCache := {}
  store : Store
  shownPrompts : List PendingPrompt := []
  canceledPrompts : Nat := 0
  deriving DecidableEq, Repr

/-- A location fix after fusion, as handed to
maybeHandleNativeAutoExpressway: coordinates, accuracy, the effective
(fused and smoothed) speed and the fix time. -/
structure FixInput where
  lat : Rat
  lng : Rat
  accuracy : Option Rat := none
  speedKmh : Option Rat := none
  time : Int
  deriving DecidableEq, Repr

/-- speedKmhToMs (routeTracking source lines 322-325). -/
def speedKmhToMs (speedKmh : Option Rat) : Option Rat :=
  match speedKmh with
  | some v => if v < 0 then none else some (v / (36 / 10))
  | none => none

/-- deriveAccelerationMs2 (routeTracking source lines 367-376): updates the
last-speed sample and returns the acceleration when the time delta is
plausible (1-20 s). -/
def deriveAccelerationMs2 (speedMs : Option Rat) (nowMs : Int) (rt : ExpresswayRuntime) :
    Option Rat × ExpresswayRuntime :=
  let prevSpeedMs := rt.lastSpeedMs
  let prevAt := rt.lastSpeedAt
  let rt2 := { rt with lastSpeedMs := speedMs, lastSpeedAt := some nowMs }
  match speedMs, prevSpeedMs, prevAt with
  | some v, some pv, some pAt =>
    let dtSec : Rat := ((nowMs - pAt : Int) : Rat) / 1000
    if dtSec < 1 ∨ 20 < dtSec then (none, rt2) else (some ((v - pv) / dtSec), rt2)
  | _, _, _ => (none, rt2)

/-- hasOpenExpressway of the routeTracking source (lines 378-392): session-id
matching with the legacy fallback on the most recent start. -/
def hasOpenExpresswayTracking (events : List Event) : Bool :=
  let starts := (events.filter (fun e => decide (e.type = EventType.expressway_start))).insertionSort
      (fun a b => a.ts ≤ b.ts)
  match starts with
  | [] => false
  | _ =>
    let ends := events.filter (fun e => decide (e.type = EventType.expressway_end))
    if starts.any (fun s => (s.extras.expresswaySessionId).isSome &&
        ! ends.any (fun en => decide (en.extras.expresswaySessionId = s.extras.expresswaySessionId))) then
      true
    else
      match starts.getLast? with
      | some lastStart => ! ends.any (fun en => decide (lastStart.ts < en.ts))
      | none => false

/-- getExpresswayOpenCached (routeTracking source lines 409-417): a 5-second
cache over hasOpenExpressway. -/
def getExpresswayOpenCached (tripId : String) (now : Int) (s : DetectorState) :
    Bool × DetectorState :=
  if s.openCache.tripId = some tripId ∧ now - s.openCache.checkedAt < 5000 then
    (s.openCache.isOpen, s)
  else
    let isOpen := hasOpenExpresswayTracking (getEventsByTripId s.store tripId)
    (isOpen, { s with openCache := { tripId := some tripId, checkedAt := now, isOpen := isOpen } })

/-- clearPendingExpresswayEndPrompt (db/repositories.ts): without a tripId
the prompt is cleared unconditionally, otherwise only when it belongs to
the trip. -/
def clearPromptFor (tripId : Option String) (st : Store) : Store :=
  match tripId with
  | none => { st with pendingEndPrompt := none }
  | some t =>
    match st.pendingEndPrompt with
    | some p => if p.tripId = t then { st with pendingEndPrompt := none } else st
    | none => st

/-- clearPendingExpresswayEndDecision (db/repositories.ts). -/
def clearDecisionFor (tripId : Option String) (st : Store) : Store :=
  match tripId with
  | none => { st with pendingEndDecision := none }
  | some t =>
    match st.pendingEndDecision with
    | some d => if d.tripId = t then { st with pendingEndDecision := none } else st
    | none => st

/-- setPendingExpresswayEndPrompt (db/repositories.ts): the speed is clamped
to 0..200 by the normalizer. -/
def setPendingExpresswayEndPrompt (p : PendingPrompt) (st : Store) : Store :=
  { st with pendingEndPrompt := some { p with speedKmh := max 0 (min 200 p.speedKmh) } }

/-- updateExpresswayResolved (db/repositories.ts lines 551-564). -/
def updateExpresswayResolved (eventId : String) (status : String) (icName : Option String)
    (icDistanceM : Option Int) (st : Store) : Store :=
  match st.events.find? (fun e => decide (e.id = eventId)) with
  | none => st
  | some ev =>
    let extras := { ev.extras with
      icResolveStatus := some status,
      icName := match icName with | some n => some n | none => ev.extras.icName,
      icDistanceM := match icDistanceM with | some d => some d | none => ev.extras.icDistanceM }
    { st with events := dbUpdateExtras eventId extras st.events }

/-- consumeKeepDecisionIfAny (routeTracking source lines 419-439): throttled
to every 3 s; a pending keep decision for the trip pushes the cooldowns to
the decision time, restarts the low-speed timer and clears prompt, decision
and native confirmation. decidedAt is an ISO timestamp in the source and is
always finite here. -/
def consumeKeepDecisionIfAny (tripId : String) (now : Int) (s : DetectorState) :
    DetectorState :=
  if now - s.runtime.lastKeepDecisionCheckAt < 3000 then s
  else
    let s1 := { s with runtime := { s.runtime with lastKeepDecisionCheckAt := now } }
    match s1.store.pendingEndDecision with
    | none => s1
    | some d =>
      if d.tripId = tripId ∧ d.action = DecisionAction.keep then
        let actionAt := d.decidedAt
        let rt := { s1.runtime with
          lastActionAt := max s1.runtime.lastActionAt actionAt,
          lastEndPromptAt := max s1.runtime.lastEndPromptAt actionAt,
          speedBelowSince := some now,
          speedRecoveredSince := none,
          endPromptOutstanding := false }
        { s1 with
          runtime := rt,
          store := clearDecisionFor (some tripId) (clearPromptFor (some tripId) s1.store),
          canceledPrompts := s1.canceledPrompts + 1 }
      else s1

inductive CandSource
  | nowS
  | accelS
  deriving DecidableEq, Repr

structure EntryIcPick where
  source : CandSource
  icName : String
  distanceM : Int
  near : Bool
  deriving DecidableEq, Repr

/-- Comparator order of pickBestEntryIcCandidate: near first, then smaller
distance, then the accel candidate before the current position. -/
def entryPickLe (a b : EntryIcPick) : Prop :=
  (a.near = true ∧ b.near = false) ∨
  (a.near = b.near ∧ (a.distanceM < b.distanceM ∨
    (a.distanceM = b.distanceM ∧ (a.source = b.source ∨ a.source = CandSource.accelS))))

instance : DecidableRel entryPickLe := fun a b => by
  unfold entryPickLe
  infer_instance

/-- pickBestEntryIcCandidate (routeTracking source lines 441-460). -/
def pickBestEntryIcCandidate (cands : List (SignalResult × CandSource)) :
    Option EntryIcPick :=
  let mapped := cands.filterMap (fun c =>
    match c.1.nearestIc with
    | some ic =>
      some { source := c.2, icName := ic.1, distanceM := ic.2, near := c.1.nearIc || c.1.nearEtcGate }
    | none => none)
  (mapped.insertionSort entryPickLe).head?

/-- The accelerometer bookkeeping at the head of
maybeHandleNativeAutoExpressway (lines 466-476): derive the acceleration
and record strong acceleration and deceleration events. -/
def autoStepAccelPhase (inp : FixInput) (s : DetectorState) : DetectorState :=
  let res := deriveAccelerationMs2 (speedKmhToMs inp.speedKmh) inp.time s.runtime
  let rt1 := res.2
  let rt2 := match res.1 with
    | some acc =>
      let rtA := if startAccelMs2 ≤ acc then
          { rt1 with
            lastStrongAccelAt := some inp.time,
            lastStrongAccelGeo := some (inp.lat, inp.lng, inp.time) }
        else rt1
      if acc ≤ endDecelMs2 then { rtA with lastStrongDecelAt := some inp.time } else rtA
    | none => rt1
  { s with runtime := rt2 }

/-- The open-session (exit) branch of maybeHandleNativeAutoExpressway
(lines 497-558). -/
def exitSide (cfg : AutoExpresswayConfig) (tripId : String) (now : Int) (speedKmh : Rat)
    (geo : Geo) (sigNow : SignalResult) (s0 : DetectorState) : DetectorState :=
  let s := { s0 with runtime := { s0.runtime with speedAboveSince := none } }
  let recoverThreshold : Rat := ((cfg.endSpeedKmh + endResetMarginKmh : Int) : Rat)
  if recoverThreshold ≤ speedKmh then
    let since := (s.runtime.speedRecoveredSince).getD now
    let s := { s with runtime := { s.runtime with speedRecoveredSince := some since } }
    if endResetHoldMs ≤ now - since ∧ s.runtime.endPromptOutstanding = true then
      { s with
        store := clearDecisionFor (some tripId) (clearPromptFor (some tripId) s.store),
        canceledPrompts := s.canceledPrompts + 1,
        runtime := { s.runtime with endPromptOutstanding := false, speedBelowSince := none } }
    else { s with runtime := { s.runtime with speedBelowSince := none } }
  else
    let s := { s with runtime := { s.runtime with speedRecoveredSince := none } }
    if ((cfg.endSpeedKmh : Int) : Rat) ≤ speedKmh then
      { s with runtime := { s.runtime with speedBelowSince := none } }
    else
      match s.runtime.speedBelowSince with
      | none => { s with runtime := { s.runtime with speedBelowSince := some now } }
      | some sbs =>
        let lowSpeedSustained : Bool := decide (cfg.endDurationSec * 1000 ≤ now - sbs)
        let strongDecelRecent : Bool := match s.runtime.lastStrongDecelAt with
          | some t => decide (now - t ≤ endDecelWindowMs)
          | none => false
        let stopLikeSustained : Bool := lowSpeedSustained && decide (speedKmh ≤ 20)
        if !lowSpeedSustained || (!strongDecelRecent && !stopLikeSustained) then s
        else if now - s.runtime.lastEndPromptAt < endPromptCooldownMs then s
        else if ¬ (sigNow.resolved = false ∨ sigNow.nearIc = true ∨ sigNow.nearEtcGate = true ∨
            sigNow.onExpresswayRoad = false) then
          { s with runtime := { s.runtime with speedBelowSince := some now } }
        else
          let prompt : PendingPrompt :=
            { tripId := tripId, speedKmh := round speedKmh, detectedAt := now, geo := geo }
          { s with
            store := setPendingExpresswayEndPrompt prompt s.store,
            shownPrompts := s.shownPrompts ++ [prompt],
            runtime := { s.runtime with lastEndPromptAt := now, lastActionAt := now, endPromptOutstanding := true, speedBelowSince := none },
            openCache := { tripId := some tripId, checkedAt := now, isOpen := true } }

/-- The closed-session (entry) branch of maybeHandleNativeAutoExpressway
(lines 560-621). -/
def entrySide (cfg : AutoExpresswayConfig) (tripId : String) (now : Int) (speedKmh : Rat)
    (geo : Geo) (sigNow sigAccel : SignalResult) (sid eid : String) (s0 : DetectorState) :
    DetectorState :=
  let rt0 := { s0.runtime with speedBelowSince := none, speedRecoveredSince := none, endPromptOutstanding := false }
  let s := { s0 with runtime := rt0 }
  if speedKmh < ((cfg.speedKmh : Int) : Rat) then
    let rt := { s.runtime with speedAboveSince := none }
    let rt := if 0 ≤ speedKmh ∧ speedKmh < ((cfg.speedKmh : Int) : Rat) * (8 / 10) then
        { rt with lastStrongAccelAt := none, lastStrongAccelGeo := none }
      else rt
    { s with runtime := rt }
  else
    match s.runtime.speedAboveSince with
    | none => { s with runtime := { s.runtime with speedAboveSince := some now } }
    | some sas =>
      let strongAccelRecent : Bool := match s.runtime.lastStrongAccelAt with
        | some t => decide (now - t ≤ startAccelWindowMs)
        | none => false
      if !strongAccelRecent then s
      else if now - sas < cfg.durationSec * 1000 then s
      else
        let accelGeoCandidate := match s.runtime.lastStrongAccelGeo with
          | some g => if now - g.2.2 ≤ startAccelWindowMs then some g else none
          | none => none
        let cands : List (SignalResult × CandSource) :=
          (sigNow, CandSource.nowS) :: (match accelGeoCandidate with
            | some _ => [(sigAccel, CandSource.accelS)]
            | none => [])
        if (cands.any (fun c =>
            !c.1.resolved || c.1.onExpresswayRoad || c.1.nearIc || c.1.nearEtcGate)) = false then
          { s with runtime := { s.runtime with speedAboveSince := some now } }
        else
          let s := { s with
            runtime := { s.runtime with speedAboveSince := none },
            store := clearDecisionFor (some tripId) (clearPromptFor (some tripId) s.store),
            canceledPrompts := s.canceledPrompts + 1 }
          match startExpressway tripId (some geo) none sid eid now s.store with
          | (Except.error _, st2) =>
            { s with
              store := st2,
              openCache := { tripId := some tripId, checkedAt := 0, isOpen := false },
              runtime := { s.runtime with inFlight := false } }
          | (Except.ok _, st2) =>
            let st3 := match pickBestEntryIcCandidate cands with
              | some best =>
                updateExpresswayResolved eid "resolved" (some best.icName) (some best.distanceM)
                  st2
              | none => st2
            { s with
              store := st3,
              runtime := { s.runtime with lastActionAt := now, inFlight := false },
              openCache := { tripId := some tripId, checkedAt := now, isOpen := true } }

/-- maybeHandleNativeAutoExpressway (routeTracking source lines 462-621),
for a native platform with an active trip. -/
def maybeHandleNativeAutoExpressway (cfg : AutoExpresswayConfig) (tripId : String)
    (inp : FixInput) (sigNow sigAccel : SignalResult) (sid eid : String)
    (s : DetectorState) : DetectorState :=
  let now := inp.time
  let s1 := autoStepAccelPhase inp s
  match inp.speedKmh with
  | none =>
    { s1 with runtime := { s1.runtime with speedAboveSince := none, speedBelowSince := none, speedRecoveredSince := none } }
  | some speedKmh =>
    let cres := getExpresswayOpenCached tripId now s1
    let isOpen := cres.1
    let s2 := cres.2
    let s3 := if isOpen then consumeKeepDecisionIfAny tripId now s2 else s2
    if s3.runtime.inFlight = true ∨ now - s3.runtime.lastActionAt < 60000 then s3
    else
      let geo : Geo := { lat := inp.lat, lng := inp.lng, accuracy := inp.accuracy }
      if isOpen then exitSide cfg tripId now speedKmh geo sigNow s3
      else entrySide cfg tripId now speedKmh geo sigNow sigAccel sid eid s3

/-! C8: exit prompts of the detector. -/

/-- Store with an open expressway session on trip A. -/
def c8Store : Store :=
  { events := [{ id := "t1", tripId := "A", type := .trip_start, ts := 1,
                 extras := { odoKm := some 0 } },
               { id := "x1", tripId := "A", type := .expressway_start, ts := 2,
                 extras := { expresswaySessionId := some "xs1",
                             icResolveStatus := some "pending" } }],
    activeTripId := some "A" }

/-- A fix at 10 km/h fused speed (below the 34 km/h exit threshold and the
42 km/h recovery threshold, and stop-like at ≤ 20 km/h). -/
def c8Fix (t : Int) : FixInput :=
  { lat := 0, lng := 0, time := t, speedKmh := some 10 }

/-- Offline road-graph response: corroboration inconclusive. -/
def c8Sig : SignalResult := { resolved := false }

def c8Step (t : Int) (sid eid : String) (s : DetectorState) : DetectorState :=
  maybeHandleNativeAutoExpressway DEFAULT_AUTO_EXPRESSWAY_CONFIG "A" (c8Fix t) c8Sig c8Sig
    sid eid s

def c8KeepDecision : PendingDecision :=
  { tripId := "A", action := .keep, decidedAt := 130000 }

/-- Trace: low-speed fixes at 100 s and 124 s raise the first prompt; the
user chooses keep at 130 s; the state after the detector consumes the keep
decision at the 130 s fix. -/
def c8AfterKeep : DetectorState :=
  let s1 := c8Step 100000 "n1" "m1" { store := c8Store }
  let s2 := c8Step 124000 "n2" "m2" s1
  let s2k : DetectorState := { s2 with store := { s2.store with pendingEndDecision := some c8KeepDecision } }
  c8Step 130000 "n3" "m3" s2k

/-- The state after one further low-speed fix at 190.001 s, just past the
60 s action cooldown, with the speed still at 10 km/h throughout. -/
def c8Final : DetectorState := c8Step 190001 "n4" "m4" c8AfterKeep

/-- C8 as stated is false on the code: after the keep decision is consumed
(prompt and decision cleared), a second end-confirmation prompt is raised
once the 60-second action cooldown has elapsed, although the fused speed
stayed at 10 km/h and never reached the 42 km/h recovery threshold. -/
theorem c8_counterexample :
    c8AfterKeep.store.pendingEndDecision = none ∧
    c8AfterKeep.store.pendingEndPrompt = none ∧
    c8AfterKeep.shownPrompts.length = 1 ∧
    c8Final.shownPrompts.length = 2 ∧
    (∀ p ∈ c8Final.shownPrompts, p.speedKmh = 10) ∧
    (10 : Rat) <
      ((DEFAULT_AUTO_EXPRESSWAY_CONFIG.endSpeedKmh + endResetMarginKmh : Int) : Rat) :=
  of_decide_eq_true (by with_unfolding_all rfl)

/-- clearPendingExpresswayEndPrompt never touches the events table. -/
lemma clearPromptFor_events (t : Option String) (st : Store) :
    (clearPromptFor t st).events = st.events := by
  unfold clearPromptFor
  rcases t with _ | t
  · rfl
  · cases h : st.pendingEndPrompt with
    | none => simp only [h]
    | some p => simp only [h]; split <;> rfl

/-- clearPendingExpresswayEndDecision never touches the events table. -/
lemma clearDecisionFor_events (t : Option String) (st : Store) :
    (clearDecisionFor t st).events = st.events := by
  unfold clearDecisionFor
  rcases t with _ | t
  · rfl
  · cases h : st.pendingEndDecision with
    | none => simp only [h]
    | some d => simp only [h]; split <;> rfl

/-- Clearing the prompt leaves the decision slot alone. -/
lemma clearPromptFor_pendingEndDecision (t : Option String) (st : Store) :
    (clearPromptFor t st).pendingEndDecision = st.pendingEndDecision := by
  unfold clearPromptFor
  rcases t with _ | t
  · rfl
  · cases h : st.pendingEndPrompt with
    | none => simp only [h]
    | some p => simp only [h]; split <;> rfl

/-- Clearing the decision leaves the prompt slot alone. -/
lemma clearDecisionFor_pendingEndPrompt (t : Option String) (st : Store) :
    (clearDecisionFor t st).pendingEndPrompt = st.pendingEndPrompt := by
  unfold clearDecisionFor
  rcases t with _ | t
  · rfl
  · cases h : st.pendingEndDecision with
    | none => simp only [h]
    | some d => simp only [h]; split <;> rfl

/-- Clearing the prompt leaves the active-trip pointer alone. -/
lemma clearPromptFor_activeTripId (t : Option String) (st : Store) :
    (clearPromptFor t st).activeTripId = st.activeTripId := by
  unfold clearPromptFor
  rcases t with _ | t
  · rfl
  · cases h : st.pendingEndPrompt with
    | none => simp only [h]
    | some p => simp only [h]; split <;> rfl

/-- Clearing the decision leaves the active-trip pointer alone. -/
lemma clearDecisionFor_activeTripId (t : Option String) (st : Store) :
    (clearDecisionFor t st).activeTripId = st.activeTripId := by
  unfold clearDecisionFor
  rcases t with _ | t
  · rfl
  · cases h : st.pendingEndDecision with
    | none => simp only [h]
    | some d => simp only [h]; split <;> rfl

/-- deriveAccelerationMs2 always installs the new speed sample in the runtime. -/
lemma deriveAccelerationMs2_snd (sp : Option Rat) (now : Int) (rt : ExpresswayRuntime) :
    (deriveAccelerationMs2 sp now rt).2 =
      { rt with lastSpeedMs := sp, lastSpeedAt := some now } := by
  simp only [deriveAccelerationMs2]
  split
  · split <;> rfl
  · rfl

/-- The accelerometer phase only touches the runtime. -/
lemma autoStepAccelPhase_store (inp : FixInput) (s : DetectorState) :
    (autoStepAccelPhase inp s).store = s.store := rfl

lemma autoStepAccelPhase_shownPrompts (inp : FixInput) (s : DetectorState) :
    (autoStepAccelPhase inp s).shownPrompts = s.shownPrompts := rfl

/-- The accelerometer phase never changes the in-flight flag. -/
lemma autoStepAccelPhase_inFlight (inp : FixInput) (s : DetectorState) :
    (autoStepAccelPhase inp s).runtime.inFlight = s.runtime.inFlight := by
  simp only [autoStepAccelPhase]
  split
  · split <;> split <;> simp [deriveAccelerationMs2_snd]
  · simp [deriveAccelerationMs2_snd]

/-- The open-session cache never changes the runtime. -/
lemma getExpresswayOpenCached_runtime (t : String) (now : Int) (s : DetectorState) :
    ((getExpresswayOpenCached t now s).2).runtime = s.runtime := by
  unfold getExpresswayOpenCached; split <;> rfl

lemma getExpresswayOpenCached_store (t : String) (now : Int) (s : DetectorState) :
    ((getExpresswayOpenCached t now s).2).store = s.store := by
  unfold getExpresswayOpenCached; split <;> rfl

lemma getExpresswayOpenCached_shownPrompts (t : String) (now : Int) (s : DetectorState) :
    ((getExpresswayOpenCached t now s).2).shownPrompts = s.shownPrompts := by
  unfold getExpresswayOpenCached; split <;> rfl

/-- Consuming a keep decision never changes the in-flight flag. -/
lemma consumeKeepDecisionIfAny_inFlight (t : String) (now : Int) (s : DetectorState) :
    (consumeKeepDecisionIfAny t now s).runtime.inFlight = s.runtime.inFlight := by
  simp only [consumeKeepDecisionIfAny]
  split
  · rfl
  · split
    · rfl
    · split <;> rfl

/-- Consuming a keep decision never writes or deletes events. -/
lemma consumeKeepDecisionIfAny_events (t : String) (now : Int) (s : DetectorState) :
    (consumeKeepDecisionIfAny t now s).store.events = s.store.events := by
  simp only [consumeKeepDecisionIfAny]
  split
  · rfl
  · split
    · rfl
    · split
      · simp [clearDecisionFor_events, clearPromptFor_events]
      · rfl

/-- Consuming a keep decision never shows a native prompt. -/
lemma consumeKeepDecisionIfAny_shownPrompts (t : String) (now : Int) (s : DetectorState) :
    (consumeKeepDecisionIfAny t now s).shownPrompts = s.shownPrompts := by
  simp only [consumeKeepDecisionIfAny]
  split
  · rfl
  · split
    · rfl
    · split <;> rfl

/-- C8 (amended): per-fix exit behaviour of the detector. (1) With the
low-speed timer running, a fused speed below the exit threshold and
stop-like (at most 20 km/h) sustained for endDurationSec, an inconclusive
road-graph signal and the 45 s prompt cooldown elapsed, the fix raises an
end prompt, records it, sets both cooldown clocks to the fix time and marks
the prompt outstanding, writing no event. (2) Within the 45 s prompt
cooldown no prompt is raised and the store is untouched; no speed-recovery
condition is consulted. (3) Consuming a pending keep decision clears the
decision, pushes both cooldown clocks to at most the decision time,
restarts the low-speed timer, and leaves events and shown prompts alone,
so only the cooldown clocks suppress later prompts. (4) A whole detector
step with the in-flight flag set leaves shown prompts and events
unchanged. -/
theorem c8_exit_prompt_lifecycle :
    (∀ (cfg : AutoExpresswayConfig) (tripId : String) (now : Int) (v : Rat) (geo : Geo)
      (sig : SignalResult) (s : DetectorState) (sbs : Int),
      s.runtime.speedBelowSince = some sbs →
      v < ((cfg.endSpeedKmh : Int) : Rat) →
      v ≤ 20 →
      cfg.endDurationSec * 1000 ≤ now - sbs →
      sig.resolved = false →
      endPromptCooldownMs ≤ now - s.runtime.lastEndPromptAt →
      (exitSide cfg tripId now v geo sig s).store.pendingEndPrompt =
        some { tripId := tripId, speedKmh := max 0 (min 200 (round v)), detectedAt := now, geo := geo } ∧
      (exitSide cfg tripId now v geo sig s).shownPrompts =
        s.shownPrompts ++ [{ tripId := tripId, speedKmh := round v, detectedAt := now, geo := geo }] ∧
      (exitSide cfg tripId now v geo sig s).runtime.lastActionAt = now ∧
      (exitSide cfg tripId now v geo sig s).runtime.lastEndPromptAt = now ∧
      (exitSide cfg tripId now v geo sig s).runtime.endPromptOutstanding = true ∧
      (exitSide cfg tripId now v geo sig s).store.events = s.store.events) ∧
    (∀ (cfg : AutoExpresswayConfig) (tripId : String) (now : Int) (v : Rat) (geo : Geo)
      (sig : SignalResult) (s : DetectorState) (sbs : Int),
      s.runtime.speedBelowSince = some sbs →
      v < ((cfg.endSpeedKmh : Int) : Rat) →
      now - s.runtime.lastEndPromptAt < endPromptCooldownMs →
      (exitSide cfg tripId now v geo sig s).shownPrompts = s.shownPrompts ∧
      (exitSide cfg tripId now v geo sig s).store = s.store) ∧
    (∀ (tripId : String) (now : Int) (s : DetectorState) (d : PendingDecision),
      s.store.pendingEndDecision = some d →
      d.tripId = tripId →
      d.action = DecisionAction.keep →
      3000 ≤ now - s.runtime.lastKeepDecisionCheckAt →
      (consumeKeepDecisionIfAny tripId now s).store.pendingEndDecision = none ∧
      (consumeKeepDecisionIfAny tripId now s).runtime.lastActionAt =
        max s.runtime.lastActionAt d.decidedAt ∧
      (consumeKeepDecisionIfAny tripId now s).runtime.lastEndPromptAt =
        max s.runtime.lastEndPromptAt d.decidedAt ∧
      (consumeKeepDecisionIfAny tripId now s).runtime.endPromptOutstanding = false ∧
      (consumeKeepDecisionIfAny tripId now s).runtime.speedBelowSince = some now ∧
      (consumeKeepDecisionIfAny tripId now s).store.events = s.store.events ∧
      (consumeKeepDecisionIfAny tripId now s).shownPrompts = s.shownPrompts) ∧
    (∀ (cfg : AutoExpresswayConfig) (tripId : String) (inp : FixInput)
      (sigNow sigAccel : SignalResult) (sid eid : String) (s : DetectorState) (v : Rat),
      inp.speedKmh = some v →
      s.runtime.inFlight = true →
      (maybeHandleNativeAutoExpressway cfg tripId inp sigNow sigAccel sid eid s).shownPrompts =
        s.shownPrompts ∧
      (maybeHandleNativeAutoExpressway cfg tripId inp sigNow sigAccel sid eid s).store.events =
        s.store.events) := by
  refine ⟨?_, ?_, ?_, ?_⟩
  · intro cfg tripId now v geo sig s sbs hsbs hv hv20 hdur hsig hcool
    have hrec : ¬ (((cfg.endSpeedKmh + endResetMarginKmh : Int) : Rat) ≤ v) := by
      simp only [endResetMarginKmh]
      push_cast
      linarith
    have hend : ¬ (((cfg.endSpeedKmh : Int) : Rat) ≤ v) := not_le.mpr hv
    have hncool : ¬ (now - s.runtime.lastEndPromptAt < endPromptCooldownMs) := not_lt.mpr hcool
    have hsigc : ¬ ¬ (sig.resolved = false ∨ sig.nearIc = true ∨ sig.nearEtcGate = true ∨
        sig.onExpresswayRoad = false) := not_not_intro (Or.inl hsig)
    simp only [exitSide, hsbs, if_neg hrec, if_neg hend, if_neg hncool, if_neg hsigc,
      decide_eq_true hdur, decide_eq_true hv20, Bool.not_true, Bool.and_true,
      Bool.false_or, Bool.and_false, Bool.or_false, if_neg (Bool.not_eq_true _ ▸ rfl)]
    simp [setPendingExpresswayEndPrompt]
  · intro cfg tripId now v geo sig s sbs hsbs hv hcool
    have hrec : ¬ (((cfg.endSpeedKmh + endResetMarginKmh : Int) : Rat) ≤ v) := by
      simp only [endResetMarginKmh]
      push_cast
      linarith
    have hend : ¬ (((cfg.endSpeedKmh : Int) : Rat) ≤ v) := not_le.mpr hv
    simp only [exitSide, hsbs, if_neg hrec, if_neg hend, if_pos hcool]
    split
    · exact ⟨rfl, rfl⟩
    · exact ⟨rfl, rfl⟩
  · intro tripId now s d hdec htid hact hthr
    have hnthr : ¬ (now - s.runtime.lastKeepDecisionCheckAt < 3000) := not_lt.mpr hthr
    simp only [consumeKeepDecisionIfAny, if_neg hnthr, hdec, htid, hact, and_self, if_pos,
      if_true]
    refine ⟨?_, trivial, trivial, trivial, trivial, ?_, trivial⟩
    · simp [clearDecisionFor, clearPromptFor_pendingEndDecision, hdec, htid]
    · simp [clearDecisionFor_events, clearPromptFor_events]
  · intro cfg tripId inp sigNow sigAccel sid eid s v hsp hin
    have hinf : ((getExpresswayOpenCached tripId inp.time (autoStepAccelPhase inp s)).2).runtime.inFlight = true := by
      rw [getExpresswayOpenCached_runtime, autoStepAccelPhase_inFlight]; exact hin
    simp only [maybeHandleNativeAutoExpressway, hsp]
    cases hop : (getExpresswayOpenCached tripId inp.time (autoStepAccelPhase inp s)).1 with
    | false =>
      simp only [hop, Bool.false_eq_true, if_false, if_pos (Or.inl hinf)]
      rw [getExpresswayOpenCached_shownPrompts, autoStepAccelPhase_shownPrompts,
        getExpresswayOpenCached_store, autoStepAccelPhase_store]
      exact ⟨rfl, rfl⟩
    | true =>
      have hinf2 : (consumeKeepDecisionIfAny tripId inp.time
          ((getExpresswayOpenCached tripId inp.time (autoStepAccelPhase inp s)).2)).runtime.inFlight = true := by
        rw [consumeKeepDecisionIfAny_inFlight]; exact hinf
      simp only [hop, if_true, if_pos (Or.inl hinf2)]
      rw [consumeKeepDecisionIfAny_shownPrompts, getExpresswayOpenCached_shownPrompts,
        autoStepAccelPhase_shownPrompts, consumeKeepDecisionIfAny_events,
        getExpresswayOpenCached_store, autoStepAccelPhase_store]
      exact ⟨rfl, rfl⟩

/-- C8 witness: a 10 km/h fix at 100 s with the low-speed timer running
since 0 raises the end prompt. -/
theorem c8_exit_prompt_lifecycle_witness :
    (exitSide DEFAULT_AUTO_EXPRESSWAY_CONFIG "A" 100000 10 { lat := 0, lng := 0 }
        { resolved := false }
        { store := { events := [] }, runtime := { speedBelowSince := some 0 } }).shownPrompts =
      [] ++ [{ tripId := "A", speedKmh := round (10 : Rat), detectedAt := 100000, geo := { lat := 0, lng := 0 } }] :=
  (c8_exit_prompt_lifecycle.1 DEFAULT_AUTO_EXPRESSWAY_CONFIG "A" 100000 10
    { lat := 0, lng := 0 } { resolved := false }
    { store := { events := [] }, runtime := { speedBelowSince := some 0 } } 0 rfl
    (by norm_num [DEFAULT_AUTO_EXPRESSWAY_CONFIG]) (by norm_num)
    (by decide) rfl (by decide)).2.1

/-! C9: the reconciliation pass of RouteTrackingSupervisor. -/

/-- hasOpenRest of RouteTrackingSupervisor.tsx (lines 16-27): some rest_start
carries a session id with no matching rest_end. -/
def hasOpenRestSupervisor (events : List Event) : Bool :=
  let starts := (events.filter (fun e => decide (e.type = EventType.rest_start))).insertionSort
      (fun a b => a.ts ≤ b.ts)
  let ends := events.filter (fun e => decide (e.type = EventType.rest_end))
  starts.any (fun s => (s.extras.restSessionId).isSome &&
    ! ends.any (fun en => decide (en.extras.restSessionId = s.extras.restSessionId)))

/-- hasOpenExpressway of RouteTrackingSupervisor.tsx (lines 29-40):
session-id matching only, no legacy fallback. -/
def hasOpenExpresswaySupervisor (events : List Event) : Bool :=
  let starts := (events.filter (fun e => decide (e.type = EventType.expressway_start))).insertionSort
      (fun a b => a.ts ≤ b.ts)
  let ends := events.filter (fun e => decide (e.type = EventType.expressway_end))
  starts.any (fun s => (s.extras.expresswaySessionId).isSome &&
    ! ends.any (fun en => decide (en.extras.expresswaySessionId = s.extras.expresswaySessionId)))

/-- External side effects of the sync pass (route tracking control and the
native prompt surface). -/
inductive SyncAction
  | stopTracking
  | startTracking (tripId : String) (mode : String)
  | cancelNative
  deriving DecidableEq, Repr

/-- The sync closure of RouteTrackingSupervisor.tsx (lines 46-98). An
endExpressway failure is thrown and swallowed by the catch, aborting the
rest of the pass; eid and now are oracle inputs for the written event, mode
stands for getRouteTrackingMode. -/
def sync (eid : String) (now : Int) (mode : String) (st : Store) : Store × List SyncAction :=
  match getActiveTripId st with
  | (none, st1) =>
    (clearDecisionFor none (clearPromptFor none st1),
     [SyncAction.stopTracking, SyncAction.cancelNative])
  | (some tripId, st1) =>
    let events := getEventsByTripId st1 tripId
    let openExpressway := hasOpenExpresswaySupervisor events
    let dec : Option Store × List SyncAction :=
      match st1.pendingEndDecision with
      | none => (some st1, [])
      | some d =>
        if d.tripId = tripId then
          if d.action = DecisionAction.keep then
            let st2 := clearPromptFor (some tripId) st1
            (some (if openExpressway = true then st2 else clearDecisionFor (some tripId) st2),
             [SyncAction.cancelNative])
          else if openExpressway = true then
            let geo : Option Geo :=
              match d.geo with
              | some g => some g
              | none =>
                match st1.pendingEndPrompt with
                | some p => if p.tripId = tripId then some p.geo else none
                | none => none
            match geo with
            | some g =>
              match endExpressway tripId (some g) none eid now st1 with
              | (Except.error _, _) => (none, [])
              | (Except.ok _, st2) =>
                (some (clearDecisionFor (some tripId) (clearPromptFor (some tripId) st2)),
                 [SyncAction.cancelNative])
            | none =>
              (some (clearDecisionFor (some tripId) (clearPromptFor (some tripId) st1)),
               [SyncAction.cancelNative])
          else
            (some (clearDecisionFor (some tripId) (clearPromptFor (some tripId) st1)),
             [SyncAction.cancelNative])
        else
          (some (clearDecisionFor (some d.tripId) st1), [])
    match dec with
    | (none, acts) => (st1, acts)
    | (some st2, acts) =>
      (st2, acts ++ (if hasOpenRestSupervisor events then [SyncAction.stopTracking]
        else [SyncAction.startTracking tripId mode]))

/-- Store with an open expressway session on trip A and a pending geo-less
end decision for A. -/
def c9Store : Store :=
  { events := [{ id := "t1", tripId := "A", type := .trip_start, ts := 1,
                 extras := { odoKm := some 0 } },
               { id := "x1", tripId := "A", type := .expressway_start, ts := 2,
                 extras := { expresswaySessionId := some "xs1",
                             icResolveStatus := some "pending" } }],
    activeTripId := some "A",
    pendingEndDecision := some { tripId := "A", action := .endAction, decidedAt := 3000 } }

/-- C9 as stated is false on the code: a pending end decision that carries no
geolocation (and has no matching prompt to borrow one from) is cleared by
sync without writing any expressway_end, so the decision is applied zero
times and the session stays open. -/
theorem c9_counterexample :
    ((sync "e9" 5000 "standard" c9Store).1.events.filter
        (fun e => decide (e.type = EventType.expressway_end))).length = 0 ∧
    (sync "e9" 5000 "standard" c9Store).1.pendingEndDecision = none ∧
    hasOpenExpresswaySupervisor
      (getEventsByTripId (sync "e9" 5000 "standard" c9Store).1 "A") = true := by
  decide

/-- A valid cached active-trip pointer is returned with the store untouched. -/
lemma getActiveTripId_cached (st : Store) (tid : String)
    (h1 : st.activeTripId = some tid) (h2 : tripHasType st tid .trip_start = true)
    (h3 : tripHasType st tid .trip_end = false) :
    getActiveTripId st = (some tid, st) := by
  unfold getActiveTripId
  rw [h1]
  simp [h2, h3]

/-- When the supervisor sees an open session-id based expressway session,
the repository session lookup used by endExpressway cannot come back
empty. -/
lemma hasOpen_supervisor_findOpen (events : List Event)
    (h : hasOpenExpresswaySupervisor events = true) :
    findOpenToggleSessionId events .expressway_start .expressway_end .expressS ≠ none := by
  unfold hasOpenExpresswaySupervisor at h
  rw [List.any_eq_true] at h
  obtain ⟨s, hs, hgood⟩ := h
  rw [Bool.and_eq_true] at hgood
  obtain ⟨hsid, hnoend⟩ := hgood
  obtain ⟨sid, hsid⟩ := Option.isSome_iff_exists.mp hsid
  simp only [findOpenToggleSessionId]
  cases hfs : ((events.filter (fun e => decide (e.type = EventType.expressway_start))).insertionSort
      (fun a b => a.ts ≤ b.ts)).reverse.findSome? (fun s =>
        match s.extras.sessionVal .expressS with
        | none => none
        | some sid =>
          if (events.filter (fun e => decide (e.type = EventType.expressway_end))).any
              (fun en => decide (en.extras.sessionVal .expressS = some sid)) then none
          else some sid) with
  | none =>
    have hfind := List.findSome?_eq_none_iff.mp hfs s (List.mem_reverse.mpr hs)
    have hnoend2 : ((events.filter (fun e => decide (e.type = EventType.expressway_end))).any
        (fun en => decide (en.extras.sessionVal .expressS = some sid))) = false := by
      have hfn : (fun (en : Event) => decide (en.extras.sessionVal .expressS = some sid)) =
          (fun (en : Event) =>
            decide (en.extras.expresswaySessionId = s.extras.expresswaySessionId)) := by
        funext en
        rw [show Extras.sessionVal en.extras SessKey.expressS = en.extras.expresswaySessionId
          from rfl, hsid]
      rw [hfn]
      simpa using hnoend
    rw [show Extras.sessionVal s.extras SessKey.expressS = s.extras.expresswaySessionId
      from rfl, hsid] at hfind
    simp [hnoend2] at hfind
  | some x =>
    simp [hfs]

/-- With a valid cached pointer and no pending decision, sync changes
nothing in the store. -/
lemma sync_noDecision_fixpoint (eid : String) (now : Int) (mode : String) (st : Store)
    (tripId : String) (h1 : st.activeTripId = some tripId)
    (h2 : tripHasType st tripId .trip_start = true)
    (h3 : tripHasType st tripId .trip_end = false)
    (h4 : st.pendingEndDecision = none) :
    (sync eid now mode st).1 = st := by
  simp only [sync, getActiveTripId_cached st tripId h1 h2 h3, h4]

/-- C9 (amended): sync applies an end decision only when a geolocation is
available. (1) With an end decision carrying a geolocation for the active
trip, an open expressway session and a fresh event id, exactly one
expressway_end is written, prompt and decision are cleared, and a second
sync run on the result is a no-op on the store. (2) A keep decision on an
open session clears nothing but the prompt: the decision itself stays in
place and no event is written. (A geo-less end decision, as in the
counterexample, is discarded without writing any event.) -/
theorem c9_sync_end_decision_spec :
    (∀ (st : Store) (tripId : String) (d : PendingDecision) (g : Geo) (eid eid2 : String)
      (now now2 : Int) (mode mode2 : String),
      st.activeTripId = some tripId →
      tripHasType st tripId .trip_start = true →
      tripHasType st tripId .trip_end = false →
      st.pendingEndDecision = some d →
      d.tripId = tripId →
      d.action = DecisionAction.endAction →
      d.geo = some g →
      st.pendingEndPrompt = none →
      hasOpenExpresswaySupervisor (getEventsByTripId st tripId) = true →
      st.events.any (fun x => decide (x.id = eid)) = false →
      ((sync eid now mode st).1.events.filter
          (fun e => decide (e.type = EventType.expressway_end))).length =
        (st.events.filter (fun e => decide (e.type = EventType.expressway_end))).length + 1 ∧
      (sync eid now mode st).1.pendingEndDecision = none ∧
      (sync eid now mode st).1.pendingEndPrompt = none ∧
      (sync eid2 now2 mode2 (sync eid now mode st).1).1 = (sync eid now mode st).1) ∧
    (∀ (st : Store) (tripId : String) (d : PendingDecision) (eid : String) (now : Int)
      (mode : String),
      st.activeTripId = some tripId →
      tripHasType st tripId .trip_start = true →
      tripHasType st tripId .trip_end = false →
      st.pendingEndDecision = some d →
      d.tripId = tripId →
      d.action = DecisionAction.keep →
      hasOpenExpresswaySupervisor (getEventsByTripId st tripId) = true →
      (sync eid now mode st).1.pendingEndDecision = some d ∧
      (sync eid now mode st).1.events = st.events) := by
  constructor
  · intro st tripId d g eid eid2 now now2 mode mode2 h1 h2 h3 h4 h5 h6 h7 hP h8 hfresh
    cases hfind : findOpenToggleSessionId (getEventsByTripId st tripId) .expressway_start
        .expressway_end .expressS with
    | none => exact absurd hfind (hasOpen_supervisor_findOpen _ h8)
    | some sid =>
      have hred : (sync eid now mode st).1 =
          { st with
            events := st.events ++ [baseEvent tripId .expressway_end (some g) none
              (if sid = "__legacy__" then { icResolveStatus := some "pending" }
               else { expresswaySessionId := some sid, icResolveStatus := some "pending" })
              eid now],
            pendingEndDecision := none } := by
        simp [sync, getActiveTripId_cached st tripId h1 h2 h3, h4, h5, h6, h7, h8,
          endExpressway, hfind, dbPut, hfresh, baseEvent, clearPromptFor, clearDecisionFor, hP]
      refine ⟨?_, ?_, ?_, ?_⟩
      · rw [hred]
        simp [baseEvent, List.filter_append]
      · rw [hred]
      · rw [hred]
        exact hP
      · have h1a : (sync eid now mode st).1.activeTripId = some tripId := by
          rw [hred]; exact h1
        have h2a : tripHasType (sync eid now mode st).1 tripId .trip_start = true := by
          rw [hred]
          simp only [tripHasType] at h2 ⊢
          simp [List.any_append, h2]
        have h3a : tripHasType (sync eid now mode st).1 tripId .trip_end = false := by
          rw [hred]
          simp only [tripHasType] at h3 ⊢
          simp [List.any_append, h3, baseEvent]
        have h4a : (sync eid now mode st).1.pendingEndDecision = none := by rw [hred]
        exact sync_noDecision_fixpoint eid2 now2 mode2 _ tripId h1a h2a h3a h4a
  · intro st tripId d eid now mode h1 h2 h3 h4 h5 h6 h8
    constructor
    · simp [sync, getActiveTripId_cached st tripId h1 h2 h3, h4, h5, h6, h8,
        clearPromptFor_pendingEndDecision]
    · simp [sync, getActiveTripId_cached st tripId h1 h2 h3, h4, h5, h6, h8,
        clearPromptFor_events]

/-- Store for the C9 witness: an open expressway session on trip A and an
end decision that carries its own geolocation. -/
def c9WStore : Store :=
  { events := [{ id := "t1", tripId := "A", type := .trip_start, ts := 1,
                 extras := { odoKm := some 0 } },
               { id := "x1", tripId := "A", type := .expressway_start, ts := 2,
                 extras := { expresswaySessionId := some "xs1",
                             icResolveStatus := some "pending" } }],
    activeTripId := some "A",
    pendingEndDecision := some { tripId := "A", action := .endAction, decidedAt := 3000, geo := some { lat := 1, lng := 2 } } }

/-- C9 witness: on the witness store sync writes exactly one expressway_end. -/
theorem c9_sync_end_decision_spec_witness :
    ((sync "e9w" 5000 "standard" c9WStore).1.events.filter
        (fun e => decide (e.type = EventType.expressway_end))).length =
      (c9WStore.events.filter (fun e => decide (e.type = EventType.expressway_end))).length + 1 :=
  (c9_sync_end_decision_spec.1 c9WStore "A"
    { tripId := "A", action := .endAction, decidedAt := 3000, geo := some { lat := 1, lng := 2 } }
    { lat := 1, lng := 2 } "e9w" "e9x" 5000 6000 "standard" "standard" rfl (by decide) (by decide)
    rfl rfl rfl rfl rfl (by decide) (by decide)).1

/-- C10 witness: fusing 100 km/h sensor speed with 80 km/h inferred speed at
20 m accuracy stays between 80 and 100. -/
theorem c10_fuseSpeedKmh_spec_witness :
    min (100 : Rat) 80 ≤ 100 * (62 / 100) + 80 * (1 - 62 / 100) ∧
    100 * (62 / 100) + 80 * (1 - 62 / 100) ≤ max (100 : Rat) 80 :=
  (c10_fuseSpeedKmh_spec 100 80 (some 20)).2.2.2 _ (by norm_num [fuseSpeedKmh, baseSensorWeight])

end Tracklog
